import Mathlib

/-!
# QUDA: communication bootstrap RNG, clover-exponential Dirac operator, eigensolver reordering

A shallow embedding of

* `src/lib/comm_common.cpp`       (`comm_drand`, the seeding done by `comm_create_topology`),
* `src/lib/dirac_clover_exp.cpp`  (`DiracCloverExp`, `DiracCloverExpPC`),
* `src/include/eigensolve_quda.h` (`TRLM::reorder`, declaration only),

followed by the theorems about them.

Conventions.  `unsigned long int` and `unsigned long long` are natural numbers reduced
modulo `2^64` after every arithmetic operation, `int` is an integer brought back into the
32-bit two's complement range, `errorQuda` is the `error` branch of `Except`.  Spinor fields live in a store indexed by
locations, so that references (`ColorSpinorField &`, `ColorSpinorField *`) are locations and
aliasing is visible.
-/

namespace quda

/-! ## `comm_common.cpp` -/

/-- The number of values of an `unsigned long int` (64 bits). -/
def ULONG_RANGE : Nat := 2 ^ 64

/-- The multiplier `m` of `comm_drand`. -/
def comm_drand.m : Nat := 25214903917

/-- The increment `a` of `comm_drand`. -/
def comm_drand.a : Nat := 11

/-- The constant `mask` of `comm_drand` (it is `2^48 - 1`). -/
def comm_drand.mask : Nat := 281474976710655

/-- The constant `twoneg48 = 0.35527136788005009e-14` of `comm_drand`, read as `2^-48`. -/
def comm_drand.twoneg48 : ℚ := 1 / 2 ^ 48

/-- The statement `rand_seed = (m * rand_seed + a) & mask;` on 64-bit unsigned integers:
the product and the sum wrap modulo `2^64`. -/
def comm_drand_seed (rand_seed : Nat) : Nat :=
  (((comm_drand.m * rand_seed) % ULONG_RANGE + comm_drand.a) % ULONG_RANGE) &&& comm_drand.mask

/-- One call of `comm_drand`, on the static `rand_seed`: the returned value
`twoneg48 * rand_seed` (the product taken exactly) and the new seed. -/
def comm_drand (rand_seed : Nat) : ℚ × Nat :=
  let rand_seed1 := comm_drand_seed rand_seed
  (comm_drand.twoneg48 * (rand_seed1 : ℚ), rand_seed1)

/-- The seed after `n` calls of `comm_drand`. -/
def comm_drand_seed_after : Nat → Nat → Nat
  | 0, rand_seed => rand_seed
  | n + 1, rand_seed => comm_drand_seed_after n (comm_drand rand_seed).2

/-- The value returned by call number `n + 1` of `comm_drand` (the calls are counted from
the seed `rand_seed`). -/
def comm_drand_value (n : Nat) (rand_seed : Nat) : ℚ :=
  (comm_drand (comm_drand_seed_after n rand_seed)).1

/-- An `int` result: the mathematical value brought into `[-2^31, 2^31)`. -/
def wrap_int (z : Int) : Int := (z + 2 ^ 31) % 2 ^ 32 - 2 ^ 31

/-- Conversion of an `int` to `unsigned long int`: the value modulo `2^64`. -/
def int_to_ulong (z : Int) : Nat := (z % 2 ^ 64).toNat

/-- The value assigned by `rand_seed = 17 * my_rank + 137;` with `int my_rank`: the product
and the sum are `int` operations, the assignment converts to `unsigned long int`. -/
def rank_seed (my_rank : Int) : Nat :=
  int_to_ulong (wrap_int (wrap_int (17 * my_rank) + 137))

/-- The effect of `comm_create_topology` on the static `rand_seed`.  `QUDA_MAX_DIM` and the
value of `comm_gpuid()` are defined outside `comm_common.cpp` and are parameters; the
construction of the topology itself does not touch `rand_seed`. -/
def comm_create_topology (QUDA_MAX_DIM ndim comm_gpuid my_rank : Int) (rand_seed : Nat) :
    Except String Nat :=
  if ndim > QUDA_MAX_DIM then .error "ndim exceeds QUDA_MAX_DIM"
  else if comm_gpuid < 0 then .ok (rank_seed my_rank)
  else .ok rand_seed

/-! ## `dirac_clover_exp.cpp`: the constructor of `DiracCloverExp` -/

/-- The clover field as the constructor of `DiracCloverExp` sees it: its member `degreeExp`
and, as a ghost field, the calls of `cloverExponential` made on it so far, each with its
arguments `degree` and `mass`. -/
structure CloverField (R : Type) where
  degreeExp : Int
  cloverExponential_calls : List (Int × R)

/-- The constructor `DiracCloverExp::DiracCloverExp(const DiracParam &param)`, on the field
`*clover` of `param`; `degree` and `mass` are initialised from `param.degreeExp` and
`param.mass`.  The base constructor `DiracClover(param)` and the body of `cloverExponential`
are outside `dirac_clover_exp.cpp`. -/
def DiracCloverExp.DiracCloverExp {R : Type} (clover : CloverField R) (param_degreeExp : Int)
    (param_mass : R) : Except String (CloverField R) :=
  let degree := param_degreeExp
  let mass := param_mass
  if clover.degreeExp ≤ 0 then
    .error "Invalid source exponential expansion degree"
  else if clover.degreeExp ≠ degree then
    if clover.degreeExp = 1 then
      if degree ≥ 0 then
        .ok { degreeExp := degree
              cloverExponential_calls := clover.cloverExponential_calls ++ [(degree, mass)] }
      else
        .error "Invalid target exponential expansion degree"
    else
      .error "Invalid source exponential expansion degree to update clover"
  else
    .ok clover

/-! ## `dirac_clover_exp.cpp`: `DiracCloverExpPC` -/

/-- The enumeration `QudaParity`, the two values the file uses. -/
inductive QudaParity
  | QUDA_EVEN_PARITY
  | QUDA_ODD_PARITY
  deriving DecidableEq, Repr

/-- The cast `static_cast<QudaParity>(n)` for `n` in `{0, 1}`: `QUDA_EVEN_PARITY` is 0 and
`QUDA_ODD_PARITY` is 1. -/
def QudaParity.static_cast (n : Nat) : QudaParity :=
  if n = 0 then .QUDA_EVEN_PARITY else .QUDA_ODD_PARITY

/-- The enumeration `QudaMatPCType`. -/
inductive QudaMatPCType
  | QUDA_MATPC_EVEN_EVEN
  | QUDA_MATPC_ODD_ODD
  | QUDA_MATPC_EVEN_EVEN_ASYMMETRIC
  | QUDA_MATPC_ODD_ODD_ASYMMETRIC
  | QUDA_MATPC_INVALID
  deriving DecidableEq, Repr

/-- The enumeration `QudaSolutionType`. -/
inductive QudaSolutionType
  | QUDA_MAT_SOLUTION
  | QUDA_MATDAG_MAT_SOLUTION
  | QUDA_MATPC_SOLUTION
  | QUDA_MATPC_DAG_SOLUTION
  | QUDA_MATPCDAG_MATPC_SOLUTION
  | QUDA_MATPCDAG_MATPC_SHIFT_SOLUTION
  | QUDA_INVALID_SOLUTION
  deriving DecidableEq, Repr

/-- A full spinor field through its accessors `Even()` and `Odd()`: the locations of its
two parity halves. -/
structure FullSpinor (L : Type) where
  Even : L
  Odd : L
  deriving DecidableEq, Repr

/-- What the pointers `src` and `sol` of `prepare` are set to: a full field or a parity
field. -/
inductive SpinorRef (L : Type)
  | full (f : FullSpinor L)
  | parity (l : L)
  deriving DecidableEq, Repr

/-- The number of values of `flops`: the counter is an `unsigned long long` (64 bits; its
declaration is outside `dirac_clover_exp.cpp`). -/
def ULLONG_RANGE : Nat := 2 ^ 64

/-- The mutable state the operator acts on: the contents of the parity fields, by
location; the performance counter `flops`, a 64-bit unsigned counter; and two ghost fields,
the number of times `flops` has wrapped around and the number of kernel applications made
so far. -/
structure DiracState (L V : Type) where
  data : L → V
  flops : Nat
  flops_wraps : Nat
  kernel_calls : Nat

/-- What `dirac_clover_exp.cpp` uses and does not define.  `Volume l` is `Volume()` of the
field at `l`.  The kernels give the contents they write to `out`: `ApplyClover inp inverse
parity`, `ApplyWilsonCloverPreconditioned inp k x parity dagger`.  The three checks are
`true` when the check passes (does not call `errorQuda`).  For the two base-class methods
`DiracWilson::DslashXpay` and `DiracClover::DslashXpay`, called with
`(out, in, parity, x, k)`, the contents written to `out` from `in parity x k dagger`, and
the number added to `flops`. -/
structure Extern (K L V : Type) where
  Volume : L → Nat
  ApplyClover : V → Bool → QudaParity → V
  ApplyWilsonCloverPreconditioned : V → K → V → QudaParity → Bool → V
  checkParitySpinor : L → L → Bool
  checkSpinorAlias : L → L → Bool
  checkFullSpinor : FullSpinor L → FullSpinor L → Bool
  WilsonDslashXpay : V → QudaParity → V → K → Bool → V
  WilsonDslashXpay_flops : L → Nat
  CloverDslashXpay : V → QudaParity → V → K → Bool → V
  CloverDslashXpay_flops : L → Nat

/-- The members of a `DiracCloverExpPC` the file reads.  `tmp1` is the location of the
temporary that `newTmp(&tmp1, ·)` provides and `deleteTmp(&tmp1, ·)` releases (both are
defined outside `dirac_clover_exp.cpp`). -/
structure DiracCloverExpPC (K L : Type) where
  kappa : K
  matpcType : QudaMatPCType
  dagger : Bool
  tmp1 : L

/-- One kernel application: the contents `v` are written to the field at `out` (and the
ghost count of kernel applications goes up by one). -/
def DiracState.write {L V : Type} [DecidableEq L] (s : DiracState L V) (out : L) (v : V) :
    DiracState L V :=
  { s with data := Function.update s.data out v, kernel_calls := s.kernel_calls + 1 }

/-- The statement `flops += n` on the 64-bit unsigned counter: the sum wraps modulo `2^64`
(each wrap is counted in the ghost field). -/
def DiracState.addFlops {L V : Type} (s : DiracState L V) (n : Nat) : DiracState L V :=
  { s with flops := (s.flops + n) % ULLONG_RANGE
           flops_wraps := s.flops_wraps + (s.flops + n) / ULLONG_RANGE }

/-- The number of flops counted so far, wraps included: `flops + 2^64 * flops_wraps`. -/
def DiracState.flops_total {L V : Type} (s : DiracState L V) : Nat :=
  s.flops + ULLONG_RANGE * s.flops_wraps

/-- The method `DiracCloverExpPC::CloverInv(out, in, parity)`. -/
def DiracCloverExpPC.CloverInv {K L V : Type} [DecidableEq L] (E : Extern K L V)
    (s : DiracState L V) (out inp : L) (parity : QudaParity) : Except String (DiracState L V) :=
  if E.checkParitySpinor inp out = false then .error "checkParitySpinor"
  else
    let s1 := s.write out (E.ApplyClover (s.data inp) true parity)
    .ok (s1.addFlops (504 * E.Volume inp))

/-- The method `DiracCloverExpPC::Dslash(out, in, parity)`. -/
def DiracCloverExpPC.Dslash {K L V : Type} [DecidableEq L] [Zero K] (E : Extern K L V)
    (D : DiracCloverExpPC K L) (s : DiracState L V) (out inp : L) (parity : QudaParity) :
    Except String (DiracState L V) :=
  if E.checkParitySpinor inp out = false then .error "checkParitySpinor"
  else if E.checkSpinorAlias inp out = false then .error "checkSpinorAlias"
  else
    let s1 := s.write out
      (E.ApplyWilsonCloverPreconditioned (s.data inp) 0 (s.data inp) parity D.dagger)
    .ok (s1.addFlops (1824 * E.Volume inp))

/-- The method `DiracCloverExpPC::DslashXpay(out, in, parity, x, k)`. -/
def DiracCloverExpPC.DslashXpay {K L V : Type} [DecidableEq L] (E : Extern K L V)
    (D : DiracCloverExpPC K L) (s : DiracState L V) (out inp : L) (parity : QudaParity)
    (x : L) (k : K) : Except String (DiracState L V) :=
  if E.checkParitySpinor inp out = false then .error "checkParitySpinor"
  else if E.checkSpinorAlias inp out = false then .error "checkSpinorAlias"
  else
    let s1 := s.write out
      (E.ApplyWilsonCloverPreconditioned (s.data inp) k (s.data x) parity D.dagger)
    .ok (s1.addFlops (1872 * E.Volume inp))

/-- Modelled from the spec: `DiracWilson::DslashXpay(out, in, parity, x, k)`, whose body is
not in src.  By the spec (section 6) an operator application is deterministic and free of
side effects apart from performance counters: the call writes `out` and adds to `flops`. -/
def DiracWilson.DslashXpay {K L V : Type} [DecidableEq L] (E : Extern K L V)
    (D : DiracCloverExpPC K L) (s : DiracState L V) (out inp : L) (parity : QudaParity)
    (x : L) (k : K) : Except String (DiracState L V) :=
  let s1 := s.write out (E.WilsonDslashXpay (s.data inp) parity (s.data x) k D.dagger)
  .ok (s1.addFlops (E.WilsonDslashXpay_flops inp))

/-- Modelled from the spec: `DiracClover::DslashXpay(out, in, parity, x, k)`, whose body is
not in src.  By the spec (section 6) an operator application is deterministic and free of
side effects apart from performance counters: the call writes `out` and adds to `flops`. -/
def DiracClover.DslashXpay {K L V : Type} [DecidableEq L] (E : Extern K L V)
    (D : DiracCloverExpPC K L) (s : DiracState L V) (out inp : L) (parity : QudaParity)
    (x : L) (k : K) : Except String (DiracState L V) :=
  let s1 := s.write out (E.CloverDslashXpay (s.data inp) parity (s.data x) k D.dagger)
  .ok (s1.addFlops (E.CloverDslashXpay_flops inp))

/-- The method `DiracCloverExpPC::M(out, in)`. -/
def DiracCloverExpPC.M {K L V : Type} [DecidableEq L] [Zero K] [Neg K] [Mul K]
    (E : Extern K L V) (D : DiracCloverExpPC K L) (s : DiracState L V) (out inp : L) :
    Except String (DiracState L V) :=
  let kappa2 : K := (-D.kappa) * D.kappa
  let symmetric : Bool :=
    if D.matpcType = .QUDA_MATPC_EVEN_EVEN ∨ D.matpcType = .QUDA_MATPC_ODD_ODD then true
    else false
  let odd_bit : Nat :=
    if D.matpcType = .QUDA_MATPC_ODD_ODD ∨ D.matpcType = .QUDA_MATPC_ODD_ODD_ASYMMETRIC then 1
    else 0
  let parity0 := QudaParity.static_cast ((1 + odd_bit) % 2)
  let parity1 := QudaParity.static_cast ((0 + odd_bit) % 2)
  if symmetric = false then do
    let s1 ← DiracCloverExpPC.Dslash E D s D.tmp1 inp parity0
    DiracClover.DslashXpay E D s1 out D.tmp1 parity1 inp kappa2
  else if D.dagger = false then do
    let s1 ← DiracCloverExpPC.Dslash E D s D.tmp1 inp parity0
    DiracCloverExpPC.DslashXpay E D s1 out D.tmp1 parity1 inp kappa2
  else do
    let s1 ← DiracCloverExpPC.CloverInv E s out inp parity1
    let s2 ← DiracCloverExpPC.Dslash E D s1 D.tmp1 out parity0
    DiracWilson.DslashXpay E D s2 out D.tmp1 parity1 inp kappa2

/-- What `prepare` leaves behind: the state and the two pointers it sets. -/
structure Prepared (L V : Type) where
  state : DiracState L V
  src : SpinorRef L
  sol : SpinorRef L

/-- The method `DiracCloverExpPC::prepare(src, sol, x, b, solType)`. -/
def DiracCloverExpPC.prepare {K L V : Type} [DecidableEq L] (E : Extern K L V)
    (D : DiracCloverExpPC K L) (s : DiracState L V) (x b : FullSpinor L)
    (solType : QudaSolutionType) : Except String (Prepared L V) :=
  if solType = .QUDA_MATPC_SOLUTION ∨ solType = .QUDA_MATPCDAG_MATPC_SOLUTION then
    .ok { state := s, src := .full b, sol := .full x }
  else if D.matpcType = .QUDA_MATPC_EVEN_EVEN then do
    let src := x.Odd
    let s1 ← DiracCloverExpPC.CloverInv E s src b.Odd .QUDA_ODD_PARITY
    let s2 ← DiracWilson.DslashXpay E D s1 D.tmp1 src .QUDA_EVEN_PARITY b.Even D.kappa
    let s3 ← DiracCloverExpPC.CloverInv E s2 src D.tmp1 .QUDA_EVEN_PARITY
    pure { state := s3, src := .parity src, sol := .parity x.Even }
  else if D.matpcType = .QUDA_MATPC_ODD_ODD then do
    let src := x.Even
    let s1 ← DiracCloverExpPC.CloverInv E s src b.Even .QUDA_EVEN_PARITY
    let s2 ← DiracWilson.DslashXpay E D s1 D.tmp1 src .QUDA_ODD_PARITY b.Odd D.kappa
    let s3 ← DiracCloverExpPC.CloverInv E s2 src D.tmp1 .QUDA_ODD_PARITY
    pure { state := s3, src := .parity src, sol := .parity x.Odd }
  else if D.matpcType = .QUDA_MATPC_EVEN_EVEN_ASYMMETRIC then do
    let src := x.Odd
    let s1 ← DiracCloverExpPC.CloverInv E s D.tmp1 b.Odd .QUDA_ODD_PARITY
    let s2 ← DiracWilson.DslashXpay E D s1 src D.tmp1 .QUDA_EVEN_PARITY b.Even D.kappa
    pure { state := s2, src := .parity src, sol := .parity x.Even }
  else if D.matpcType = .QUDA_MATPC_ODD_ODD_ASYMMETRIC then do
    let src := x.Even
    let s1 ← DiracCloverExpPC.CloverInv E s D.tmp1 b.Even .QUDA_EVEN_PARITY
    let s2 ← DiracWilson.DslashXpay E D s1 src D.tmp1 .QUDA_ODD_PARITY b.Odd D.kappa
    pure { state := s2, src := .parity src, sol := .parity x.Odd }
  else
    .error "MatPCType not valid for DiracCloverExpPC"

/-- The method `DiracCloverExpPC::reconstruct(x, b, solType)`. -/
def DiracCloverExpPC.reconstruct {K L V : Type} [DecidableEq L] (E : Extern K L V)
    (D : DiracCloverExpPC K L) (s : DiracState L V) (x b : FullSpinor L)
    (solType : QudaSolutionType) : Except String (DiracState L V) :=
  if solType = .QUDA_MATPC_SOLUTION ∨ solType = .QUDA_MATPCDAG_MATPC_SOLUTION then
    .ok s
  else if E.checkFullSpinor x b = false then .error "checkFullSpinor"
  else if D.matpcType = .QUDA_MATPC_EVEN_EVEN
      ∨ D.matpcType = .QUDA_MATPC_EVEN_EVEN_ASYMMETRIC then do
    let s1 ← DiracWilson.DslashXpay E D s D.tmp1 x.Even .QUDA_ODD_PARITY b.Odd D.kappa
    DiracCloverExpPC.CloverInv E s1 x.Odd D.tmp1 .QUDA_ODD_PARITY
  else if D.matpcType = .QUDA_MATPC_ODD_ODD
      ∨ D.matpcType = .QUDA_MATPC_ODD_ODD_ASYMMETRIC then do
    let s1 ← DiracWilson.DslashXpay E D s D.tmp1 x.Odd .QUDA_EVEN_PARITY b.Even D.kappa
    DiracCloverExpPC.CloverInv E s1 x.Even D.tmp1 .QUDA_EVEN_PARITY
  else
    .error "MatPCType not valid for DiracCloverExpPC"

/-! ### A small instance, for evaluating the definitions -/

/-- A hopping term on integers. -/
def exampleHop (parity : QudaParity) (v : Int) : Int :=
  if parity = .QUDA_EVEN_PARITY then v + 5 else 7 * v

/-- Kernels on integer "fields" at five locations, each of volume 8. -/
def exampleExtern : Extern Int (Fin 5) Int where
  Volume := fun _ => 8
  ApplyClover := fun v _ parity => if parity = .QUDA_EVEN_PARITY then 2 * v + 1 else 3 * v
  ApplyWilsonCloverPreconditioned := fun inp k x parity _ => k * x + exampleHop parity inp
  checkParitySpinor := fun _ _ => true
  checkSpinorAlias := fun i o => i != o
  checkFullSpinor := fun _ _ => true
  WilsonDslashXpay := fun inp parity x k _ => x + k • exampleHop parity inp
  WilsonDslashXpay_flops := fun _ => 1368 * 8
  CloverDslashXpay := fun inp parity x k _ => 2 * x + k • exampleHop parity inp
  CloverDslashXpay_flops := fun _ => 1872 * 8

/-- An operator with `kappa = 2`, `dagger` off and the temporary at location 4. -/
def exampleDirac (matpcType : QudaMatPCType) : DiracCloverExpPC Int (Fin 5) :=
  { kappa := 2, matpcType := matpcType, dagger := false, tmp1 := 4 }

/-- The field `x`: its halves are at locations 0 and 1. -/
def exampleX : FullSpinor (Fin 5) := { Even := 0, Odd := 1 }

/-- The field `b`: its halves are at locations 2 and 3. -/
def exampleB : FullSpinor (Fin 5) := { Even := 2, Odd := 3 }

/-- The same operator with its temporary at location `tmp1`. -/
def exampleDiracAt (matpcType : QudaMatPCType) (tmp1 : Fin 5) : DiracCloverExpPC Int (Fin 5) :=
  { kappa := 2, matpcType := matpcType, dagger := false, tmp1 := tmp1 }

/-- A state: contents 10, 20, 30, 40, 50 at the five locations, counters at 0. -/
def exampleState : DiracState (Fin 5) Int :=
  { data := ![10, 20, 30, 40, 50], flops := 0, flops_wraps := 0, kernel_calls := 0 }

/-- The same state with `flops` at its largest value, `2^64 - 1`. -/
def exampleStateFull : DiracState (Fin 5) Int :=
  { data := ![10, 20, 30, 40, 50], flops := 18446744073709551615, flops_wraps := 0,
    kernel_calls := 0 }

/-! ## `eigensolve_quda.h`: `TRLM::reorder` -/

/-- Modelled from the spec: `TRLM::reorder`, which `eigensolve_quda.h` declares ("Reorder
the Krylov space by eigenvalue") and whose body is not in src.  Spec, section 4.2: it sorts
"the final converged eigenpairs into the caller-requested order (ascending/descending, with
an additional reversal if polynomial acceleration was used)".  An eigenpair is a value with
its Krylov vector; the values are taken in a linear order; the sort is the stable insertion
sort on the values; the order is descending when exactly one of `descending` (the caller's
request) and `reverse` (polynomial acceleration in use) holds. -/
def TRLM.reorder {α β : Type} [LinearOrder α] (descending reverse : Bool)
    (eigenpairs : List (α × β)) : List (α × β) :=
  if (descending != reverse) = true then
    eigenpairs.insertionSort (fun p q => q.1 ≤ p.1)
  else
    eigenpairs.insertionSort (fun p q => p.1 ≤ q.1)

end quda

namespace quda

/-! ## Theorems: `comm_drand` -/

theorem comm_drand_mask_eq : comm_drand.mask = 2 ^ 48 - 1 := by
  norm_num [comm_drand.mask]

theorem comm_drand_seed_eq_mod (s : Nat) :
    comm_drand_seed s = (25214903917 * s + 11) % 2 ^ 48 := by
  unfold comm_drand_seed
  rw [comm_drand_mask_eq, Nat.and_pow_two_sub_one_eq_mod]
  simp only [ULONG_RANGE, comm_drand.m, comm_drand.a]
  omega

theorem comm_drand_seed_lt (s : Nat) : comm_drand_seed s < 2 ^ 48 := by
  rw [comm_drand_seed_eq_mod]
  exact Nat.mod_lt _ (by norm_num)

end quda

namespace quda

theorem comm_drand_seed_inj_mod (s t : Nat) (h : comm_drand_seed s = comm_drand_seed t) :
    s % 2 ^ 48 = t % 2 ^ 48 := by
  rw [comm_drand_seed_eq_mod, comm_drand_seed_eq_mod] at h
  have h1 : 25214903917 * s ≡ 25214903917 * t [MOD 2 ^ 48] :=
    Nat.ModEq.add_right_cancel' 11 h
  have hc : Nat.gcd (2 ^ 48) 25214903917 = 1 := by
    have : Nat.Coprime 2 25214903917 := by norm_num
    exact Nat.Coprime.pow_left 48 this
  exact Nat.ModEq.cancel_left_of_coprime hc h1

theorem comm_drand_seed_after_succ (n s : Nat) :
    comm_drand_seed_after (n + 1) s = comm_drand_seed (comm_drand_seed_after n s) := by
  induction n generalizing s with
  | zero => rfl
  | succ k ih =>
    show comm_drand_seed_after (k + 1) (comm_drand s).2 = _
    rw [ih]
    rfl

theorem comm_drand_seed_after_ne (s t : Nat) (h : s % 2 ^ 48 ≠ t % 2 ^ 48) (n : Nat) :
    comm_drand_seed_after n s % 2 ^ 48 ≠ comm_drand_seed_after n t % 2 ^ 48 := by
  induction n with
  | zero => exact h
  | succ k ih =>
    rw [comm_drand_seed_after_succ, comm_drand_seed_after_succ]
    rw [Nat.mod_eq_of_lt (comm_drand_seed_lt _), Nat.mod_eq_of_lt (comm_drand_seed_lt _)]
    intro hk
    exact ih (comm_drand_seed_inj_mod _ _ hk)

theorem comm_drand_value_ne (s t : Nat) (h : s % 2 ^ 48 ≠ t % 2 ^ 48) (n : Nat) :
    comm_drand_value n s ≠ comm_drand_value n t := by
  have hn := comm_drand_seed_after_ne s t h (n + 1)
  rw [comm_drand_seed_after_succ, comm_drand_seed_after_succ] at hn
  intro hv
  apply hn
  simp only [comm_drand_value, comm_drand, comm_drand.twoneg48] at hv
  have h2 : ((comm_drand_seed (comm_drand_seed_after n s) : Nat) : ℚ)
      = ((comm_drand_seed (comm_drand_seed_after n t) : Nat) : ℚ) := by
    have hpos : (1 / 2 ^ 48 : ℚ) ≠ 0 := by norm_num
    exact mul_left_cancel₀ hpos hv
  rw [Nat.cast_inj.mp h2]

theorem wrap_int_of_range (z : Int) (h0 : -2 ^ 31 ≤ z) (h1 : z < 2 ^ 31) : wrap_int z = z := by
  unfold wrap_int; omega

theorem wrap_int_emod (z : Int) : wrap_int z % 2 ^ 32 = z % 2 ^ 32 := by
  unfold wrap_int; omega

theorem int_to_ulong_emod (z : Int) : (int_to_ulong z : Int) % 2 ^ 32 = z % 2 ^ 32 := by
  unfold int_to_ulong; omega

theorem int_to_ulong_of_nonneg (z : Int) (h0 : 0 ≤ z) (h1 : z < 2 ^ 64) :
    (int_to_ulong z : Int) = z := by
  unfold int_to_ulong; omega

theorem rank_seed_small (r : Int) (h0 : 0 ≤ r) (h1 : r ≤ 126322559) :
    (rank_seed r : Int) = 17 * r + 137 := by
  unfold rank_seed
  rw [wrap_int_of_range (17 * r) (by omega) (by omega),
    wrap_int_of_range (17 * r + 137) (by omega) (by omega),
    int_to_ulong_of_nonneg _ (by omega) (by omega)]

theorem rank_seed_emod (r : Int) : (rank_seed r : Int) % 2 ^ 32 = (17 * r + 137) % 2 ^ 32 := by
  unfold rank_seed
  rw [int_to_ulong_emod, wrap_int_emod]
  have := wrap_int_emod (17 * r)
  omega

theorem seed_congr_inj (a b : Nat) (r1 r2 : Int)
    (e1 : (a : Int) % 2 ^ 32 = (17 * r1 + 137) % 2 ^ 32)
    (e2 : (b : Int) % 2 ^ 32 = (17 * r2 + 137) % 2 ^ 32)
    (h : a % 2 ^ 48 = b % 2 ^ 48)
    (h1 : 0 ≤ r1) (h1u : r1 < 2 ^ 31) (h2 : 0 ≤ r2) (h2u : r2 < 2 ^ 31) : r1 = r2 := by
  have h3 : (a : Int) % 2 ^ 32 = (b : Int) % 2 ^ 32 := by
    clear e1 e2
    omega
  rw [e1, e2] at h3
  have hd : (2 ^ 32 : Int) ∣ (17 * r2 + 137) - (17 * r1 + 137) :=
    Int.dvd_of_emod_eq_zero ((Int.emod_eq_emod_iff_emod_sub_eq_zero).1 h3.symm)
  have hd2 : (2 ^ 32 : Int) ∣ 17 * (r2 - r1) := by
    have e : (17 * r2 + 137) - (17 * r1 + 137) = 17 * (r2 - r1) := by ring
    rw [e] at hd
    exact hd
  have hg : Int.gcd (2 ^ 32 : Int) 17 = 1 := by norm_num
  have hd3 : (2 ^ 32 : Int) ∣ r2 - r1 := Int.dvd_of_dvd_mul_right_of_gcd_one hd2 hg
  obtain ⟨k, hk⟩ := hd3
  clear hd hd2 h3 e1 e2 h hg
  omega

theorem rank_seed_mod_ne (r1 r2 : Int) (h1 : 0 ≤ r1) (h1u : r1 < 2 ^ 31) (h2 : 0 ≤ r2)
    (h2u : r2 < 2 ^ 31) (hne : r1 ≠ r2) :
    rank_seed r1 % 2 ^ 48 ≠ rank_seed r2 % 2 ^ 48 := fun h =>
  hne (seed_congr_inj _ _ r1 r2 (rank_seed_emod r1) (rank_seed_emod r2) h h1 h1u h2 h2u)

theorem math_seed_lt (r : Int) (h1 : 0 ≤ r) (h1u : r < 2 ^ 31) :
    (17 * r + 137).toNat < 2 ^ 48 := by omega

theorem math_seed_mod_ne (r1 r2 : Int) (h1 : 0 ≤ r1) (h1u : r1 < 2 ^ 31) (h2 : 0 ≤ r2)
    (h2u : r2 < 2 ^ 31) (hne : r1 ≠ r2) :
    (17 * r1 + 137).toNat % 2 ^ 48 ≠ (17 * r2 + 137).toNat % 2 ^ 48 := by
  rw [Nat.mod_eq_of_lt (math_seed_lt r1 h1 h1u), Nat.mod_eq_of_lt (math_seed_lt r2 h2 h2u)]
  omega

theorem ne_of_mod_ne (a b k : Nat) (h : a % k ≠ b % k) : a ≠ b := fun e => h (by rw [e])

/-- C2: for every value of the seed, `comm_drand` returns a value `r` with `0 ≤ r < 1`
(`twoneg48` read as `2^-48`, the product exact). -/
theorem comm_drand_unit_interval (rand_seed : Nat) :
    0 ≤ (comm_drand rand_seed).1 ∧ (comm_drand rand_seed).1 < 1 := by
  have hlt : ((comm_drand_seed rand_seed : Nat) : ℚ) < 2 ^ 48 := by
    exact_mod_cast comm_drand_seed_lt rand_seed
  have h0 : (0 : ℚ) ≤ ((comm_drand_seed rand_seed : Nat) : ℚ) := Nat.cast_nonneg _
  simp only [comm_drand, comm_drand.twoneg48]
  constructor
  · positivity
  · rw [one_div, inv_mul_lt_iff₀ (by positivity)]
    simpa using hlt

/-- C3: `comm_drand` is the rand48 recurrence: the new seed is
`(25214903917 * s + 11) mod 2^48` over the unbounded naturals (the wrap-around of the
64-bit product and sum does not show), and it is below `2^48`. -/
theorem comm_drand_is_rand48 (s : Nat) :
    (comm_drand s).2 = (25214903917 * s + 11) % 2 ^ 48 ∧ (comm_drand s).2 < 2 ^ 48 :=
  ⟨comm_drand_seed_eq_mod s, comm_drand_seed_lt s⟩

/-- C10 as stated fails: with `comm_gpuid() < 0` and `my_rank = 126322560` the `int`
expression `17 * my_rank + 137` leaves the 32-bit range, and the seed that is stored is
`2^64 - 2147483639`, not `17 * 126322560 + 137 = 2147483657`. -/
theorem comm_create_topology_seed_counterexample :
    comm_create_topology 6 4 (-1) 126322560 137 = .ok 18446744071562067977 ∧
      (18446744071562067977 : Nat) ≠ 17 * 126322560 + 137 := by
  constructor
  · simp [comm_create_topology, rank_seed, int_to_ulong, wrap_int]
  · norm_num

/-- C10 (amended): when `comm_gpuid() < 0`, `comm_create_topology` (with `ndim` within
`QUDA_MAX_DIM`) stores the seed `17 * my_rank + 137` computed in 32-bit `int` arithmetic and
converted to 64 bits, which is the number `17 * my_rank + 137` whenever
`0 ≤ my_rank ≤ 126322559`.  For two ranks `r1 ≠ r2` in `[0, 2^31)` the seeds stored, and the
numbers `17 * r + 137` as well, lead to streams that differ at every step: after `n` calls of
`comm_drand` the seeds differ, and so do the values returned by call `n + 1`; one step of
`comm_drand` is injective on `[0, 2^48)`.  When `comm_gpuid() ≥ 0` the seed is unchanged. -/
theorem comm_create_topology_rank_streams (QUDA_MAX_DIM ndim comm_gpuid r1 r2 : Int)
    (rand_seed : Nat) (hdim : ndim ≤ QUDA_MAX_DIM)
    (h1 : 0 ≤ r1) (h1u : r1 < 2 ^ 31) (h2 : 0 ≤ r2) (h2u : r2 < 2 ^ 31) (hne : r1 ≠ r2) :
    (comm_gpuid < 0 →
      comm_create_topology QUDA_MAX_DIM ndim comm_gpuid r1 rand_seed = .ok (rank_seed r1) ∧
      comm_create_topology QUDA_MAX_DIM ndim comm_gpuid r2 rand_seed = .ok (rank_seed r2) ∧
      (r1 ≤ 126322559 → (rank_seed r1 : Int) = 17 * r1 + 137) ∧
      ∀ n : Nat,
        comm_drand_seed_after n (rank_seed r1) ≠ comm_drand_seed_after n (rank_seed r2) ∧
        comm_drand_value n (rank_seed r1) ≠ comm_drand_value n (rank_seed r2)) ∧
    (∀ n : Nat,
        comm_drand_seed_after n (17 * r1 + 137).toNat
          ≠ comm_drand_seed_after n (17 * r2 + 137).toNat ∧
        comm_drand_value n (17 * r1 + 137).toNat ≠ comm_drand_value n (17 * r2 + 137).toNat) ∧
    (∀ s t : Nat, s < 2 ^ 48 → t < 2 ^ 48 → (comm_drand s).2 = (comm_drand t).2 → s = t) ∧
    (0 ≤ comm_gpuid →
      comm_create_topology QUDA_MAX_DIM ndim comm_gpuid r1 rand_seed = .ok rand_seed) := by
  have hnd : ¬ ndim > QUDA_MAX_DIM := not_lt.mpr hdim
  refine ⟨?_, ?_, ?_, ?_⟩
  · intro hg
    have hm := rank_seed_mod_ne r1 r2 h1 h1u h2 h2u hne
    refine ⟨by simp [comm_create_topology, hnd, hg], by simp [comm_create_topology, hnd, hg],
      fun hs => rank_seed_small r1 h1 hs, fun n => ⟨?_, comm_drand_value_ne _ _ hm n⟩⟩
    exact ne_of_mod_ne _ _ _ (comm_drand_seed_after_ne _ _ hm n)
  · have hm := math_seed_mod_ne r1 r2 h1 h1u h2 h2u hne
    exact fun n => ⟨ne_of_mod_ne _ _ _ (comm_drand_seed_after_ne _ _ hm n),
      comm_drand_value_ne _ _ hm n⟩
  · intro s t hs ht hst
    have := comm_drand_seed_inj_mod s t hst
    rwa [Nat.mod_eq_of_lt hs, Nat.mod_eq_of_lt ht] at this
  · intro hg
    have hg2 : ¬ comm_gpuid < 0 := not_lt.mpr hg
    simp [comm_create_topology, hnd, hg2]

/-- C10 (amended), at `QUDA_MAX_DIM = 6`, `ndim = 4`, `comm_gpuid() = -1`, ranks 0 and 1,
previous seed 137. -/
theorem comm_create_topology_rank_streams_witness :
    ((4 : Int) ≤ 6 ∧ (0 : Int) ≤ 0 ∧ (0 : Int) < 2 ^ 31 ∧ (0 : Int) ≤ 1 ∧ (1 : Int) < 2 ^ 31
      ∧ (0 : Int) ≠ 1) ∧
    comm_create_topology 6 4 (-1) 0 137 = .ok (rank_seed 0) ∧
    ∀ n : Nat,
      comm_drand_seed_after n (rank_seed 0) ≠ comm_drand_seed_after n (rank_seed 1) ∧
      comm_drand_value n (rank_seed 0) ≠ comm_drand_value n (rank_seed 1) :=
  have h := (comm_create_topology_rank_streams 6 4 (-1) 0 1 137 (by decide) (by decide)
    (by decide) (by decide) (by decide) (by decide)).1 (by decide)
  ⟨⟨by decide, by decide, by decide, by decide, by decide, by decide⟩, h.1, h.2.2.2⟩

end quda

namespace quda

/-! ## Theorems: the constructor of `DiracCloverExp` -/

/-- C1: constructing a `DiracCloverExp` raises an error exactly when the clover field's
`degreeExp` is `≤ 0`, or it differs from the requested degree and either it is not 1 or
the requested degree is negative.  In every other case the construction succeeds, the
clover field's `degreeExp` is the requested degree afterwards, and `cloverExponential` has
been called, once and with the requested degree and the mass, exactly when the two degrees
differed on entry. -/
theorem DiracCloverExp.constructor_contract {R : Type} (clover : CloverField R) (degree : Int)
    (mass : R) :
    ((∃ e, DiracCloverExp.DiracCloverExp clover degree mass = .error e) ↔
      (clover.degreeExp ≤ 0 ∨
        (clover.degreeExp ≠ degree ∧ (clover.degreeExp ≠ 1 ∨ degree < 0)))) ∧
    (¬ (clover.degreeExp ≤ 0 ∨
        (clover.degreeExp ≠ degree ∧ (clover.degreeExp ≠ 1 ∨ degree < 0))) →
      DiracCloverExp.DiracCloverExp clover degree mass = .ok
        { degreeExp := degree
          cloverExponential_calls := clover.cloverExponential_calls ++
            (if clover.degreeExp ≠ degree then [(degree, mass)] else []) }) := by
  obtain ⟨c, calls⟩ := clover
  by_cases h0 : c ≤ 0
  · simp [DiracCloverExp.DiracCloverExp, h0]
  · by_cases hne : c = degree
    · subst hne
      simp [DiracCloverExp.DiracCloverExp, h0]
    · by_cases h1 : c = 1
      · subst h1
        by_cases hd : degree ≥ 0
        · have hd2 : ¬ degree < 0 := not_lt.mpr hd
          simp [DiracCloverExp.DiracCloverExp, hne, hd, hd2]
        · have hd2 : degree < 0 := not_le.mp hd
          simp [DiracCloverExp.DiracCloverExp, hne, hd, hd2]
      · simp [DiracCloverExp.DiracCloverExp, h0, hne, h1]

/-- C1 at a clover field of degree 1 with no call made yet, requested degree 3, mass 5:
the construction succeeds and calls `cloverExponential` once. -/
theorem DiracCloverExp.constructor_contract_witness :
    DiracCloverExp.DiracCloverExp ({ degreeExp := 1, cloverExponential_calls := [] } : CloverField Int) 3 5
      = .ok { degreeExp := 3, cloverExponential_calls := [(3, 5)] } :=
  (DiracCloverExp.constructor_contract { degreeExp := 1, cloverExponential_calls := [] } 3 5).2
    (by decide)

end quda

namespace quda

/-! ## Theorems: `DiracCloverExpPC` -/

theorem DiracCloverExpPC.CloverInv_ok {K L V : Type} [DecidableEq L] (E : Extern K L V)
    (s : DiracState L V) (out inp : L) (parity : QudaParity)
    (h : E.checkParitySpinor inp out = true) :
    DiracCloverExpPC.CloverInv E s out inp parity =
      .ok ((s.write out (E.ApplyClover (s.data inp) true parity)).addFlops
        (504 * E.Volume inp)) := by
  simp [DiracCloverExpPC.CloverInv, h]

theorem DiracCloverExpPC.Dslash_ok {K L V : Type} [DecidableEq L] [Zero K] (E : Extern K L V)
    (D : DiracCloverExpPC K L) (s : DiracState L V) (out inp : L) (parity : QudaParity)
    (h : E.checkParitySpinor inp out = true) (ha : E.checkSpinorAlias inp out = true) :
    DiracCloverExpPC.Dslash E D s out inp parity =
      .ok ((s.write out (E.ApplyWilsonCloverPreconditioned (s.data inp) 0 (s.data inp)
        parity D.dagger)).addFlops (1824 * E.Volume inp)) := by
  simp [DiracCloverExpPC.Dslash, h, ha]

theorem DiracCloverExpPC.DslashXpay_ok {K L V : Type} [DecidableEq L] (E : Extern K L V)
    (D : DiracCloverExpPC K L) (s : DiracState L V) (out inp : L) (parity : QudaParity)
    (x : L) (k : K)
    (h : E.checkParitySpinor inp out = true) (ha : E.checkSpinorAlias inp out = true) :
    DiracCloverExpPC.DslashXpay E D s out inp parity x k =
      .ok ((s.write out (E.ApplyWilsonCloverPreconditioned (s.data inp) k (s.data x)
        parity D.dagger)).addFlops (1872 * E.Volume inp)) := by
  simp [DiracCloverExpPC.DslashXpay, h, ha]

/-- C6: when `solType` is `QUDA_MATPC_SOLUTION` or `QUDA_MATPCDAG_MATPC_SOLUTION`, `prepare`
sets `src` to `b` and `sol` to `x` and `reconstruct` returns at once: whatever `matpcType`
is, neither raises an error, and the state (the contents of all fields, `flops`, the number
of kernel applications) is the one on entry. -/
theorem DiracCloverExpPC.preconditioned_solution_untouched {K L V : Type} [DecidableEq L]
    (E : Extern K L V) (D : DiracCloverExpPC K L) (s : DiracState L V) (x b : FullSpinor L)
    (solType : QudaSolutionType)
    (hsol : solType = .QUDA_MATPC_SOLUTION ∨ solType = .QUDA_MATPCDAG_MATPC_SOLUTION) :
    DiracCloverExpPC.prepare E D s x b solType = .ok { state := s, src := .full b, sol := .full x }
      ∧ DiracCloverExpPC.reconstruct E D s x b solType = .ok s := by
  simp [DiracCloverExpPC.prepare, DiracCloverExpPC.reconstruct, hsol]

/-- C6 on the small instance, with an invalid `matpcType`. -/
theorem DiracCloverExpPC.preconditioned_solution_untouched_witness :
    DiracCloverExpPC.prepare exampleExtern (exampleDirac .QUDA_MATPC_INVALID) exampleState
        exampleX exampleB .QUDA_MATPC_SOLUTION
      = .ok { state := exampleState, src := .full exampleB, sol := .full exampleX }
    ∧ DiracCloverExpPC.reconstruct exampleExtern (exampleDirac .QUDA_MATPC_INVALID) exampleState
        exampleX exampleB .QUDA_MATPC_SOLUTION = .ok exampleState :=
  DiracCloverExpPC.preconditioned_solution_untouched exampleExtern
    (exampleDirac .QUDA_MATPC_INVALID) exampleState exampleX exampleB .QUDA_MATPC_SOLUTION
    (Or.inl rfl)

end quda

namespace quda

theorem DiracState.write_data_same {L V : Type} [DecidableEq L] (s : DiracState L V) (out : L)
    (v : V) : (s.write out v).data out = v := by
  simp [DiracState.write]

theorem DiracState.write_data_ne {L V : Type} [DecidableEq L] (s : DiracState L V)
    (out l : L) (v : V) (h : l ≠ out) : (s.write out v).data l = s.data l := by
  simp [DiracState.write, Function.update_noteq h]

theorem DiracState.addFlops_data {L V : Type} (s : DiracState L V) (n : Nat) :
    (s.addFlops n).data = s.data := rfl

theorem DiracCloverExpPC.prepare_even_even {K L V : Type} [DecidableEq L] [Add V]
    [SMul K V] (E : Extern K L V) (D : DiracCloverExpPC K L) (s : DiracState L V)
    (x b : FullSpinor L) (solType : QudaSolutionType) (hop : QudaParity → V → V)
    (hsol : ¬ (solType = .QUDA_MATPC_SOLUTION ∨ solType = .QUDA_MATPCDAG_MATPC_SOLUTION))
    (hD : ∀ i p v k, E.WilsonDslashXpay i p v k D.dagger = v + k • hop p i)
    (hmt : D.matpcType = .QUDA_MATPC_EVEN_EVEN)
    (hc1 : E.checkParitySpinor b.Odd x.Odd = true)
    (hc2 : E.checkParitySpinor D.tmp1 x.Odd = true)
    (hne : b.Even ≠ x.Odd) :
    ∃ s1 : DiracState L V,
      DiracCloverExpPC.prepare E D s x b solType
        = .ok { state := s1, src := .parity x.Odd, sol := .parity x.Even } ∧
      s1.data x.Odd = E.ApplyClover (s.data b.Even + D.kappa •
        hop .QUDA_EVEN_PARITY (E.ApplyClover (s.data b.Odd) true .QUDA_ODD_PARITY))
          true .QUDA_EVEN_PARITY := by
  simp [DiracCloverExpPC.prepare, hsol, hmt, DiracCloverExpPC.CloverInv, hc1, hc2,
    DiracWilson.DslashXpay, bind, Except.bind, pure, Except.pure, DiracState.write,
    DiracState.addFlops, Function.update_apply, hD, hne]

theorem DiracCloverExpPC.prepare_even_even_check_fails {K L V : Type} [DecidableEq L]
    (E : Extern K L V) (D : DiracCloverExpPC K L) (s : DiracState L V)
    (x b : FullSpinor L) (solType : QudaSolutionType)
    (hsol : ¬ (solType = .QUDA_MATPC_SOLUTION ∨ solType = .QUDA_MATPCDAG_MATPC_SOLUTION))
    (hmt : D.matpcType = .QUDA_MATPC_EVEN_EVEN)
    (h : E.checkParitySpinor b.Odd x.Odd = false
      ∨ E.checkParitySpinor D.tmp1 x.Odd = false) :
    ∃ e, DiracCloverExpPC.prepare E D s x b solType = .error e := by
  rcases h with h | h
  · simp [DiracCloverExpPC.prepare, hsol, hmt, DiracCloverExpPC.CloverInv, h, bind,
      Except.bind]
  · cases h1 : E.checkParitySpinor b.Odd x.Odd <;>
    simp [DiracCloverExpPC.prepare, hsol, hmt, DiracCloverExpPC.CloverInv, h, h1,
      DiracWilson.DslashXpay, bind, Except.bind]

theorem DiracCloverExpPC.prepare_odd_odd {K L V : Type} [DecidableEq L] [Add V]
    [SMul K V] (E : Extern K L V) (D : DiracCloverExpPC K L) (s : DiracState L V)
    (x b : FullSpinor L) (solType : QudaSolutionType) (hop : QudaParity → V → V)
    (hsol : ¬ (solType = .QUDA_MATPC_SOLUTION ∨ solType = .QUDA_MATPCDAG_MATPC_SOLUTION))
    (hD : ∀ i p v k, E.WilsonDslashXpay i p v k D.dagger = v + k • hop p i)
    (hmt : D.matpcType = .QUDA_MATPC_ODD_ODD)
    (hc1 : E.checkParitySpinor b.Even x.Even = true)
    (hc2 : E.checkParitySpinor D.tmp1 x.Even = true)
    (hne : b.Odd ≠ x.Even) :
    ∃ s1 : DiracState L V,
      DiracCloverExpPC.prepare E D s x b solType
        = .ok { state := s1, src := .parity x.Even, sol := .parity x.Odd } ∧
      s1.data x.Even = E.ApplyClover (s.data b.Odd + D.kappa •
        hop .QUDA_ODD_PARITY (E.ApplyClover (s.data b.Even) true .QUDA_EVEN_PARITY))
          true .QUDA_ODD_PARITY := by
  simp [DiracCloverExpPC.prepare, hsol, hmt, DiracCloverExpPC.CloverInv, hc1, hc2,
    DiracWilson.DslashXpay, bind, Except.bind, pure, Except.pure, DiracState.write,
    DiracState.addFlops, Function.update_apply, hD, hne]

theorem DiracCloverExpPC.prepare_odd_odd_check_fails {K L V : Type} [DecidableEq L]
    (E : Extern K L V) (D : DiracCloverExpPC K L) (s : DiracState L V)
    (x b : FullSpinor L) (solType : QudaSolutionType)
    (hsol : ¬ (solType = .QUDA_MATPC_SOLUTION ∨ solType = .QUDA_MATPCDAG_MATPC_SOLUTION))
    (hmt : D.matpcType = .QUDA_MATPC_ODD_ODD)
    (h : E.checkParitySpinor b.Even x.Even = false
      ∨ E.checkParitySpinor D.tmp1 x.Even = false) :
    ∃ e, DiracCloverExpPC.prepare E D s x b solType = .error e := by
  rcases h with h | h
  · simp [DiracCloverExpPC.prepare, hsol, hmt, DiracCloverExpPC.CloverInv, h, bind,
      Except.bind]
  · cases h1 : E.checkParitySpinor b.Even x.Even <;>
    simp [DiracCloverExpPC.prepare, hsol, hmt, DiracCloverExpPC.CloverInv, h, h1,
      DiracWilson.DslashXpay, bind, Except.bind]

theorem DiracCloverExpPC.prepare_even_even_asymmetric {K L V : Type} [DecidableEq L] [Add V]
    [SMul K V] (E : Extern K L V) (D : DiracCloverExpPC K L) (s : DiracState L V)
    (x b : FullSpinor L) (solType : QudaSolutionType) (hop : QudaParity → V → V)
    (hsol : ¬ (solType = .QUDA_MATPC_SOLUTION ∨ solType = .QUDA_MATPCDAG_MATPC_SOLUTION))
    (hD : ∀ i p v k, E.WilsonDslashXpay i p v k D.dagger = v + k • hop p i)
    (hmt : D.matpcType = .QUDA_MATPC_EVEN_EVEN_ASYMMETRIC)
    (hc1 : E.checkParitySpinor b.Odd D.tmp1 = true)
    (hne : b.Even ≠ D.tmp1) :
    ∃ s1 : DiracState L V,
      DiracCloverExpPC.prepare E D s x b solType
        = .ok { state := s1, src := .parity x.Odd, sol := .parity x.Even } ∧
      s1.data x.Odd = s.data b.Even + D.kappa •
        hop .QUDA_EVEN_PARITY (E.ApplyClover (s.data b.Odd) true .QUDA_ODD_PARITY) := by
  simp [DiracCloverExpPC.prepare, hsol, hmt, DiracCloverExpPC.CloverInv, hc1,
    DiracWilson.DslashXpay, bind, Except.bind, pure, Except.pure, DiracState.write,
    DiracState.addFlops, Function.update_apply, hD, hne]

theorem DiracCloverExpPC.prepare_even_even_asymmetric_check_fails {K L V : Type} [DecidableEq L]
    (E : Extern K L V) (D : DiracCloverExpPC K L) (s : DiracState L V)
    (x b : FullSpinor L) (solType : QudaSolutionType)
    (hsol : ¬ (solType = .QUDA_MATPC_SOLUTION ∨ solType = .QUDA_MATPCDAG_MATPC_SOLUTION))
    (hmt : D.matpcType = .QUDA_MATPC_EVEN_EVEN_ASYMMETRIC)
    (h : E.checkParitySpinor b.Odd D.tmp1 = false) :
    ∃ e, DiracCloverExpPC.prepare E D s x b solType = .error e := by
  simp [DiracCloverExpPC.prepare, hsol, hmt, DiracCloverExpPC.CloverInv, h, bind,
    Except.bind]

theorem DiracCloverExpPC.prepare_odd_odd_asymmetric {K L V : Type} [DecidableEq L] [Add V]
    [SMul K V] (E : Extern K L V) (D : DiracCloverExpPC K L) (s : DiracState L V)
    (x b : FullSpinor L) (solType : QudaSolutionType) (hop : QudaParity → V → V)
    (hsol : ¬ (solType = .QUDA_MATPC_SOLUTION ∨ solType = .QUDA_MATPCDAG_MATPC_SOLUTION))
    (hD : ∀ i p v k, E.WilsonDslashXpay i p v k D.dagger = v + k • hop p i)
    (hmt : D.matpcType = .QUDA_MATPC_ODD_ODD_ASYMMETRIC)
    (hc1 : E.checkParitySpinor b.Even D.tmp1 = true)
    (hne : b.Odd ≠ D.tmp1) :
    ∃ s1 : DiracState L V,
      DiracCloverExpPC.prepare E D s x b solType
        = .ok { state := s1, src := .parity x.Even, sol := .parity x.Odd } ∧
      s1.data x.Even = s.data b.Odd + D.kappa •
        hop .QUDA_ODD_PARITY (E.ApplyClover (s.data b.Even) true .QUDA_EVEN_PARITY) := by
  simp [DiracCloverExpPC.prepare, hsol, hmt, DiracCloverExpPC.CloverInv, hc1,
    DiracWilson.DslashXpay, bind, Except.bind, pure, Except.pure, DiracState.write,
    DiracState.addFlops, Function.update_apply, hD, hne]

theorem DiracCloverExpPC.prepare_odd_odd_asymmetric_check_fails {K L V : Type} [DecidableEq L]
    (E : Extern K L V) (D : DiracCloverExpPC K L) (s : DiracState L V)
    (x b : FullSpinor L) (solType : QudaSolutionType)
    (hsol : ¬ (solType = .QUDA_MATPC_SOLUTION ∨ solType = .QUDA_MATPCDAG_MATPC_SOLUTION))
    (hmt : D.matpcType = .QUDA_MATPC_ODD_ODD_ASYMMETRIC)
    (h : E.checkParitySpinor b.Even D.tmp1 = false) :
    ∃ e, DiracCloverExpPC.prepare E D s x b solType = .error e := by
  simp [DiracCloverExpPC.prepare, hsol, hmt, DiracCloverExpPC.CloverInv, h, bind,
    Except.bind]

theorem DiracCloverExpPC.prepare_invalid {K L V : Type} [DecidableEq L]
    (E : Extern K L V) (D : DiracCloverExpPC K L) (s : DiracState L V)
    (x b : FullSpinor L) (solType : QudaSolutionType)
    (hsol : ¬ (solType = .QUDA_MATPC_SOLUTION ∨ solType = .QUDA_MATPCDAG_MATPC_SOLUTION))
    (hmt : D.matpcType = .QUDA_MATPC_INVALID) :
    DiracCloverExpPC.prepare E D s x b solType
      = .error "MatPCType not valid for DiracCloverExpPC" := by
  simp [DiracCloverExpPC.prepare, hsol, hmt]

/-- C4 as stated fails when the temporary is the field `b.Even`: on the small instance
(`b_e = 30`, `b_o = 40`, `kappa = 2`) with `tmp1` at the location of `b.Even`, `prepare` with
`EVEN_EVEN_ASYMMETRIC` returns with `src = x.Odd` holding 370, while
`b_e + k D_eo A_oo^-1 b_o` is `30 + 2 * (3 * 40 + 5) = 280`: `CloverInv(*tmp1, b.Odd(), ...)`
has overwritten `b.Even` before `DslashXpay` reads it. -/
theorem DiracCloverExpPC.prepare_aliased_counterexample :
    (DiracCloverExpPC.prepare exampleExtern
        (exampleDiracAt .QUDA_MATPC_EVEN_EVEN_ASYMMETRIC exampleB.Even) exampleState exampleX
        exampleB .QUDA_MAT_SOLUTION).map (fun r => (r.src, r.state.data exampleX.Odd))
      = .ok (.parity exampleX.Odd, 370) ∧
    exampleState.data exampleB.Even + (2 : Int) • exampleHop .QUDA_EVEN_PARITY
      (exampleExtern.ApplyClover (exampleState.data exampleB.Odd) true .QUDA_ODD_PARITY) = 280 := by
  constructor
  · rfl
  · decide

/-- C4 (amended): for a full-system solution type, with `DiracWilson::DslashXpay` computing
`x + k D in` for a hopping term `D` and `A_pp^-1` standing for `ApplyClover` with the
inverse flag at parity `p`.  Provided the `checkParitySpinor` calls it makes pass and the
half of `b` it reads last has not been overwritten before (`b.Even` is not the field
`x.Odd` for `EVEN_EVEN`, `b.Odd` is not `x.Even` for `ODD_ODD`, `b.Even` is not the
temporary for `EVEN_EVEN_ASYMMETRIC`, `b.Odd` is not the temporary for
`ODD_ODD_ASYMMETRIC`), `prepare` returns, sets `sol` to the half of `x` named by
`matpcType` and `src` to the other half, and `src` holds
`A_ee^-1 (b_e + k D_eo A_oo^-1 b_o)` for `EVEN_EVEN`, `A_oo^-1 (b_o + k D_oe A_ee^-1 b_e)`
for `ODD_ODD`, `b_e + k D_eo A_oo^-1 b_o` for `EVEN_EVEN_ASYMMETRIC` and
`b_o + k D_oe A_ee^-1 b_e` for `ODD_ODD_ASYMMETRIC`; when both the symmetric and the
asymmetric conditions hold, the symmetric source is the clover inverse of the asymmetric
source of the same parity.  Any other `matpcType` raises an error, and so does a valid one
when one of its `checkParitySpinor` calls fails. -/
theorem DiracCloverExpPC.prepare_full_system {K L V : Type} [DecidableEq L] [Add V]
    [SMul K V] (E : Extern K L V) (D : DiracCloverExpPC K L) (s : DiracState L V)
    (x b : FullSpinor L) (solType : QudaSolutionType) (hop : QudaParity → V → V)
    (hsol : ¬ (solType = .QUDA_MATPC_SOLUTION ∨ solType = .QUDA_MATPCDAG_MATPC_SOLUTION))
    (hD : ∀ i p v k, E.WilsonDslashXpay i p v k D.dagger = v + k • hop p i) :
    (E.checkParitySpinor b.Odd x.Odd = true → E.checkParitySpinor D.tmp1 x.Odd = true →
      b.Even ≠ x.Odd →
      ∃ s1 : DiracState L V,
        DiracCloverExpPC.prepare E { D with matpcType := .QUDA_MATPC_EVEN_EVEN } s x b solType
          = .ok { state := s1, src := .parity x.Odd, sol := .parity x.Even } ∧
        s1.data x.Odd = E.ApplyClover (s.data b.Even + D.kappa •
          hop .QUDA_EVEN_PARITY (E.ApplyClover (s.data b.Odd) true .QUDA_ODD_PARITY))
          true .QUDA_EVEN_PARITY) ∧
    (E.checkParitySpinor b.Even x.Even = true → E.checkParitySpinor D.tmp1 x.Even = true →
      b.Odd ≠ x.Even →
      ∃ s1 : DiracState L V,
        DiracCloverExpPC.prepare E { D with matpcType := .QUDA_MATPC_ODD_ODD } s x b solType
          = .ok { state := s1, src := .parity x.Even, sol := .parity x.Odd } ∧
        s1.data x.Even = E.ApplyClover (s.data b.Odd + D.kappa •
          hop .QUDA_ODD_PARITY (E.ApplyClover (s.data b.Even) true .QUDA_EVEN_PARITY))
          true .QUDA_ODD_PARITY) ∧
    (E.checkParitySpinor b.Odd D.tmp1 = true → b.Even ≠ D.tmp1 →
      ∃ s1 : DiracState L V,
        DiracCloverExpPC.prepare E { D with matpcType := .QUDA_MATPC_EVEN_EVEN_ASYMMETRIC } s x b solType
          = .ok { state := s1, src := .parity x.Odd, sol := .parity x.Even } ∧
        s1.data x.Odd = s.data b.Even + D.kappa •
          hop .QUDA_EVEN_PARITY (E.ApplyClover (s.data b.Odd) true .QUDA_ODD_PARITY)) ∧
    (E.checkParitySpinor b.Even D.tmp1 = true → b.Odd ≠ D.tmp1 →
      ∃ s1 : DiracState L V,
        DiracCloverExpPC.prepare E { D with matpcType := .QUDA_MATPC_ODD_ODD_ASYMMETRIC } s x b solType
          = .ok { state := s1, src := .parity x.Even, sol := .parity x.Odd } ∧
        s1.data x.Even = s.data b.Odd + D.kappa •
          hop .QUDA_ODD_PARITY (E.ApplyClover (s.data b.Even) true .QUDA_EVEN_PARITY)) ∧
    (E.checkParitySpinor b.Odd x.Odd = true → E.checkParitySpinor D.tmp1 x.Odd = true →
      b.Even ≠ x.Odd → E.checkParitySpinor b.Odd D.tmp1 = true → b.Even ≠ D.tmp1 →
      ∃ sS sA : DiracState L V,
        DiracCloverExpPC.prepare E { D with matpcType := .QUDA_MATPC_EVEN_EVEN } s x b solType
          = .ok { state := sS, src := .parity x.Odd, sol := .parity x.Even } ∧
        DiracCloverExpPC.prepare E { D with matpcType := .QUDA_MATPC_EVEN_EVEN_ASYMMETRIC } s x b solType
          = .ok { state := sA, src := .parity x.Odd, sol := .parity x.Even } ∧
        sS.data x.Odd = E.ApplyClover (sA.data x.Odd) true .QUDA_EVEN_PARITY) ∧
    (E.checkParitySpinor b.Even x.Even = true → E.checkParitySpinor D.tmp1 x.Even = true →
      b.Odd ≠ x.Even → E.checkParitySpinor b.Even D.tmp1 = true → b.Odd ≠ D.tmp1 →
      ∃ sS sA : DiracState L V,
        DiracCloverExpPC.prepare E { D with matpcType := .QUDA_MATPC_ODD_ODD } s x b solType
          = .ok { state := sS, src := .parity x.Even, sol := .parity x.Odd } ∧
        DiracCloverExpPC.prepare E { D with matpcType := .QUDA_MATPC_ODD_ODD_ASYMMETRIC } s x b solType
          = .ok { state := sA, src := .parity x.Even, sol := .parity x.Odd } ∧
        sS.data x.Even = E.ApplyClover (sA.data x.Even) true .QUDA_ODD_PARITY) ∧
    (∃ e, DiracCloverExpPC.prepare E { D with matpcType := .QUDA_MATPC_INVALID } s x b solType = .error e) ∧
    (E.checkParitySpinor b.Odd x.Odd = false ∨ E.checkParitySpinor D.tmp1 x.Odd = false →
      ∃ e, DiracCloverExpPC.prepare E { D with matpcType := .QUDA_MATPC_EVEN_EVEN } s x b solType = .error e) ∧
    (E.checkParitySpinor b.Even x.Even = false ∨ E.checkParitySpinor D.tmp1 x.Even = false →
      ∃ e, DiracCloverExpPC.prepare E { D with matpcType := .QUDA_MATPC_ODD_ODD } s x b solType = .error e) ∧
    (E.checkParitySpinor b.Odd D.tmp1 = false →
      ∃ e, DiracCloverExpPC.prepare E { D with matpcType := .QUDA_MATPC_EVEN_EVEN_ASYMMETRIC } s x b solType = .error e) ∧
    (E.checkParitySpinor b.Even D.tmp1 = false →
      ∃ e, DiracCloverExpPC.prepare E { D with matpcType := .QUDA_MATPC_ODD_ODD_ASYMMETRIC } s x b solType = .error e) := by
  refine ⟨?_, ?_, ?_, ?_, ?_, ?_, ?_, ?_, ?_, ?_, ?_⟩
  · exact DiracCloverExpPC.prepare_even_even E { D with matpcType := .QUDA_MATPC_EVEN_EVEN } s x b solType
      hop hsol hD rfl
  · exact DiracCloverExpPC.prepare_odd_odd E { D with matpcType := .QUDA_MATPC_ODD_ODD } s x b solType
      hop hsol hD rfl
  · exact DiracCloverExpPC.prepare_even_even_asymmetric E
      { D with matpcType := .QUDA_MATPC_EVEN_EVEN_ASYMMETRIC } s x b solType hop hsol hD rfl
  · exact DiracCloverExpPC.prepare_odd_odd_asymmetric E
      { D with matpcType := .QUDA_MATPC_ODD_ODD_ASYMMETRIC } s x b solType hop hsol hD rfl
  · intro c1 c2 n1 c3 n2
    obtain ⟨sS, hS, dS⟩ := DiracCloverExpPC.prepare_even_even E
      { D with matpcType := .QUDA_MATPC_EVEN_EVEN } s x b solType hop hsol hD rfl c1 c2 n1
    obtain ⟨sA, hA, dA⟩ := DiracCloverExpPC.prepare_even_even_asymmetric E
      { D with matpcType := .QUDA_MATPC_EVEN_EVEN_ASYMMETRIC } s x b solType hop hsol hD rfl c3 n2
    exact ⟨sS, sA, hS, hA, by rw [dS, dA]⟩
  · intro c1 c2 n1 c3 n2
    obtain ⟨sS, hS, dS⟩ := DiracCloverExpPC.prepare_odd_odd E
      { D with matpcType := .QUDA_MATPC_ODD_ODD } s x b solType hop hsol hD rfl c1 c2 n1
    obtain ⟨sA, hA, dA⟩ := DiracCloverExpPC.prepare_odd_odd_asymmetric E
      { D with matpcType := .QUDA_MATPC_ODD_ODD_ASYMMETRIC } s x b solType hop hsol hD rfl c3 n2
    exact ⟨sS, sA, hS, hA, by rw [dS, dA]⟩
  · exact ⟨_, DiracCloverExpPC.prepare_invalid E { D with matpcType := .QUDA_MATPC_INVALID } s x b
      solType hsol rfl⟩
  · exact DiracCloverExpPC.prepare_even_even_check_fails E
      { D with matpcType := .QUDA_MATPC_EVEN_EVEN } s x b solType hsol rfl
  · exact DiracCloverExpPC.prepare_odd_odd_check_fails E
      { D with matpcType := .QUDA_MATPC_ODD_ODD } s x b solType hsol rfl
  · exact DiracCloverExpPC.prepare_even_even_asymmetric_check_fails E
      { D with matpcType := .QUDA_MATPC_EVEN_EVEN_ASYMMETRIC } s x b solType hsol rfl
  · exact DiracCloverExpPC.prepare_odd_odd_asymmetric_check_fails E
      { D with matpcType := .QUDA_MATPC_ODD_ODD_ASYMMETRIC } s x b solType hsol rfl

/-- C4 (amended) on the small instance (`b_e = 30`, `b_o = 40`, `kappa = 2`), with the
temporary on the field `b.Odd`, the aliasing the source calls safe: the hypotheses hold, and
`prepare` with `EVEN_EVEN_ASYMMETRIC` leaves `30 + 2 * (3 * 40 + 5) = 280` in `x.Odd`. -/
theorem DiracCloverExpPC.prepare_full_system_witness :
    (¬ (QudaSolutionType.QUDA_MAT_SOLUTION = .QUDA_MATPC_SOLUTION
        ∨ QudaSolutionType.QUDA_MAT_SOLUTION = .QUDA_MATPCDAG_MATPC_SOLUTION)) ∧
    (∀ i p v k, exampleExtern.WilsonDslashXpay i p v k
      (exampleDiracAt .QUDA_MATPC_EVEN_EVEN_ASYMMETRIC exampleB.Odd).dagger
        = v + k • exampleHop p i) ∧
    exampleExtern.checkParitySpinor exampleB.Odd
      (exampleDiracAt .QUDA_MATPC_EVEN_EVEN_ASYMMETRIC exampleB.Odd).tmp1 = true ∧
    exampleB.Even ≠ (exampleDiracAt .QUDA_MATPC_EVEN_EVEN_ASYMMETRIC exampleB.Odd).tmp1 ∧
    ∃ s1 : DiracState (Fin 5) Int,
      DiracCloverExpPC.prepare exampleExtern
        (exampleDiracAt .QUDA_MATPC_EVEN_EVEN_ASYMMETRIC exampleB.Odd) exampleState
        exampleX exampleB .QUDA_MAT_SOLUTION
        = .ok { state := s1, src := .parity 1, sol := .parity 0 } ∧ s1.data 1 = 280 :=
  ⟨by decide, fun _ _ _ _ => rfl, rfl, by decide,
    match (DiracCloverExpPC.prepare_full_system exampleExtern
      (exampleDiracAt .QUDA_MATPC_EVEN_EVEN_ASYMMETRIC exampleB.Odd) exampleState exampleX
      exampleB .QUDA_MAT_SOLUTION exampleHop (by decide) (fun _ _ _ _ => rfl)).2.2.1 rfl
      (by decide) with
    | ⟨s1, h1, d1⟩ => ⟨s1, h1, d1.trans (by decide)⟩⟩

theorem DiracCloverExpPC.reconstruct_even {K L V : Type} [DecidableEq L] [Add V]
    [SMul K V] (E : Extern K L V) (D : DiracCloverExpPC K L) (s : DiracState L V)
    (x b : FullSpinor L) (solType : QudaSolutionType) (hop : QudaParity → V → V)
    (hsol : ¬ (solType = .QUDA_MATPC_SOLUTION ∨ solType = .QUDA_MATPCDAG_MATPC_SOLUTION))
    (hD : ∀ i p v k, E.WilsonDslashXpay i p v k D.dagger = v + k • hop p i)
    (hfull : E.checkFullSpinor x b = true)
    (hc : E.checkParitySpinor D.tmp1 x.Odd = true)
    (hmt : D.matpcType = .QUDA_MATPC_EVEN_EVEN ∨ D.matpcType = .QUDA_MATPC_EVEN_EVEN_ASYMMETRIC) :
    DiracCloverExpPC.reconstruct E D s x b solType = .ok
      ((((s.write D.tmp1 (s.data b.Odd + D.kappa • hop .QUDA_ODD_PARITY (s.data x.Even))).addFlops
        (E.WilsonDslashXpay_flops x.Even)).write x.Odd
          (E.ApplyClover (s.data b.Odd + D.kappa • hop .QUDA_ODD_PARITY (s.data x.Even))
            true .QUDA_ODD_PARITY)).addFlops (504 * E.Volume D.tmp1)) := by
  rcases hmt with h | h <;>
  simp [DiracCloverExpPC.reconstruct, hsol, hfull, h, DiracCloverExpPC.CloverInv, hc,
    DiracWilson.DslashXpay, bind, Except.bind, hD, DiracState.write_data_same,
    DiracState.addFlops_data]

theorem DiracCloverExpPC.reconstruct_even_check_fails {K L V : Type} [DecidableEq L]
    (E : Extern K L V) (D : DiracCloverExpPC K L) (s : DiracState L V)
    (x b : FullSpinor L) (solType : QudaSolutionType)
    (hsol : ¬ (solType = .QUDA_MATPC_SOLUTION ∨ solType = .QUDA_MATPCDAG_MATPC_SOLUTION))
    (h : E.checkFullSpinor x b = false ∨ E.checkParitySpinor D.tmp1 x.Odd = false)
    (hmt : D.matpcType = .QUDA_MATPC_EVEN_EVEN ∨ D.matpcType = .QUDA_MATPC_EVEN_EVEN_ASYMMETRIC) :
    ∃ e, DiracCloverExpPC.reconstruct E D s x b solType = .error e := by
  rcases h with h | h
  · simp [DiracCloverExpPC.reconstruct, hsol, h]
  · cases hfull : E.checkFullSpinor x b
    · simp [DiracCloverExpPC.reconstruct, hsol, hfull]
    · rcases hmt with h1 | h1 <;>
      simp [DiracCloverExpPC.reconstruct, hsol, hfull, h1, DiracCloverExpPC.CloverInv, h,
        DiracWilson.DslashXpay, bind, Except.bind]

theorem DiracCloverExpPC.reconstruct_odd {K L V : Type} [DecidableEq L] [Add V]
    [SMul K V] (E : Extern K L V) (D : DiracCloverExpPC K L) (s : DiracState L V)
    (x b : FullSpinor L) (solType : QudaSolutionType) (hop : QudaParity → V → V)
    (hsol : ¬ (solType = .QUDA_MATPC_SOLUTION ∨ solType = .QUDA_MATPCDAG_MATPC_SOLUTION))
    (hD : ∀ i p v k, E.WilsonDslashXpay i p v k D.dagger = v + k • hop p i)
    (hfull : E.checkFullSpinor x b = true)
    (hc : E.checkParitySpinor D.tmp1 x.Even = true)
    (hmt : D.matpcType = .QUDA_MATPC_ODD_ODD ∨ D.matpcType = .QUDA_MATPC_ODD_ODD_ASYMMETRIC) :
    DiracCloverExpPC.reconstruct E D s x b solType = .ok
      ((((s.write D.tmp1 (s.data b.Even + D.kappa • hop .QUDA_EVEN_PARITY (s.data x.Odd))).addFlops
        (E.WilsonDslashXpay_flops x.Odd)).write x.Even
          (E.ApplyClover (s.data b.Even + D.kappa • hop .QUDA_EVEN_PARITY (s.data x.Odd))
            true .QUDA_EVEN_PARITY)).addFlops (504 * E.Volume D.tmp1)) := by
  rcases hmt with h | h <;>
  simp [DiracCloverExpPC.reconstruct, hsol, hfull, h, DiracCloverExpPC.CloverInv, hc,
    DiracWilson.DslashXpay, bind, Except.bind, hD, DiracState.write_data_same,
    DiracState.addFlops_data]

theorem DiracCloverExpPC.reconstruct_odd_check_fails {K L V : Type} [DecidableEq L]
    (E : Extern K L V) (D : DiracCloverExpPC K L) (s : DiracState L V)
    (x b : FullSpinor L) (solType : QudaSolutionType)
    (hsol : ¬ (solType = .QUDA_MATPC_SOLUTION ∨ solType = .QUDA_MATPCDAG_MATPC_SOLUTION))
    (h : E.checkFullSpinor x b = false ∨ E.checkParitySpinor D.tmp1 x.Even = false)
    (hmt : D.matpcType = .QUDA_MATPC_ODD_ODD ∨ D.matpcType = .QUDA_MATPC_ODD_ODD_ASYMMETRIC) :
    ∃ e, DiracCloverExpPC.reconstruct E D s x b solType = .error e := by
  rcases h with h | h
  · simp [DiracCloverExpPC.reconstruct, hsol, h]
  · cases hfull : E.checkFullSpinor x b
    · simp [DiracCloverExpPC.reconstruct, hsol, hfull]
    · rcases hmt with h1 | h1 <;>
      simp [DiracCloverExpPC.reconstruct, hsol, hfull, h1, DiracCloverExpPC.CloverInv, h,
        DiracWilson.DslashXpay, bind, Except.bind]

theorem DiracCloverExpPC.reconstruct_invalid {K L V : Type} [DecidableEq L]
    (E : Extern K L V) (D : DiracCloverExpPC K L) (s : DiracState L V)
    (x b : FullSpinor L) (solType : QudaSolutionType)
    (hsol : ¬ (solType = .QUDA_MATPC_SOLUTION ∨ solType = .QUDA_MATPCDAG_MATPC_SOLUTION))
    (hmt : D.matpcType = .QUDA_MATPC_INVALID) :
    ∃ e, DiracCloverExpPC.reconstruct E D s x b solType = .error e := by
  cases hfull : E.checkFullSpinor x b <;>
  simp [DiracCloverExpPC.reconstruct, hsol, hfull, hmt]

theorem DiracState.reconstruct_frame {L V : Type} [DecidableEq L] (s : DiracState L V)
    (tmp out l : L) (v w : V) (n m : Nat) (h1 : l ≠ out) (h2 : l ≠ tmp) :
    ((((s.write tmp v).addFlops n).write out w).addFlops m).data l = s.data l := by
  simp [DiracState.write, DiracState.addFlops, Function.update_apply, h1, h2]

theorem DiracState.reconstruct_value {L V : Type} [DecidableEq L] (s : DiracState L V)
    (tmp out : L) (v w : V) (n m : Nat) :
    ((((s.write tmp v).addFlops n).write out w).addFlops m).data out = w := by
  simp [DiracState.write, DiracState.addFlops]

/-- C5 as stated fails when the temporary is the field `b.Odd`: on the small instance
(`x_e = 10`, `b_o = 40`, `kappa = 2`) with `tmp1` at the location of `b.Odd`, `reconstruct`
with `EVEN_EVEN` returns with `b.Odd` holding `40 + 2 * (7 * 10) = 180` instead of 40:
`DslashXpay(*tmp1, ...)` has written `b`. -/
theorem DiracCloverExpPC.reconstruct_aliased_counterexample :
    (DiracCloverExpPC.reconstruct exampleExtern
        (exampleDiracAt .QUDA_MATPC_EVEN_EVEN exampleB.Odd) exampleState exampleX exampleB
        .QUDA_MAT_SOLUTION).map (fun s1 => s1.data exampleB.Odd) = .ok 180 ∧
    exampleState.data exampleB.Odd = 40 := by
  constructor
  · rfl
  · rfl

/-- C5 (amended): for a full-system solution type, with `DiracWilson::DslashXpay` computing
`x + k D in`.  Provided `checkFullSpinor` and the `checkParitySpinor` call it makes pass,
`reconstruct` returns; for `EVEN_EVEN` and `EVEN_EVEN_ASYMMETRIC` alike `x.Odd` holds
`A_oo^-1 (b_o + k D_oe x_e)` and every field other than `x.Odd` and the temporary `tmp1`
holds what it held on entry: so `x.Even`, `b.Even` and `b.Odd` are unchanged when they are
neither the field `x.Odd` nor the temporary.  For `ODD_ODD` and `ODD_ODD_ASYMMETRIC` alike
`x.Even` holds `A_ee^-1 (b_e + k D_eo x_o)` and every field other than `x.Even` and the
temporary is unchanged.  The state returned is the same for the symmetric and the
asymmetric type.  Any other `matpcType` raises an error, and so does a valid one when
`checkFullSpinor` or its `checkParitySpinor` call fails. -/
theorem DiracCloverExpPC.reconstruct_full_system {K L V : Type} [DecidableEq L] [Add V]
    [SMul K V] (E : Extern K L V) (D : DiracCloverExpPC K L) (s : DiracState L V)
    (x b : FullSpinor L) (solType : QudaSolutionType) (hop : QudaParity → V → V)
    (hsol : ¬ (solType = .QUDA_MATPC_SOLUTION ∨ solType = .QUDA_MATPCDAG_MATPC_SOLUTION))
    (hD : ∀ i p v k, E.WilsonDslashXpay i p v k D.dagger = v + k • hop p i) :
    (E.checkFullSpinor x b = true → E.checkParitySpinor D.tmp1 x.Odd = true →
      ∃ s1 : DiracState L V,
        DiracCloverExpPC.reconstruct E { D with matpcType := .QUDA_MATPC_EVEN_EVEN } s x b solType = .ok s1 ∧
        DiracCloverExpPC.reconstruct E { D with matpcType := .QUDA_MATPC_EVEN_EVEN_ASYMMETRIC } s x b solType = .ok s1 ∧
        s1.data x.Odd = E.ApplyClover
          (s.data b.Odd + D.kappa • hop .QUDA_ODD_PARITY (s.data x.Even)) true .QUDA_ODD_PARITY ∧
        (∀ l, l ≠ x.Odd → l ≠ D.tmp1 → s1.data l = s.data l) ∧
        (x.Even ≠ x.Odd → x.Even ≠ D.tmp1 → s1.data x.Even = s.data x.Even) ∧
        (b.Even ≠ x.Odd → b.Even ≠ D.tmp1 → s1.data b.Even = s.data b.Even) ∧
        (b.Odd ≠ x.Odd → b.Odd ≠ D.tmp1 → s1.data b.Odd = s.data b.Odd)) ∧
    (E.checkFullSpinor x b = true → E.checkParitySpinor D.tmp1 x.Even = true →
      ∃ s1 : DiracState L V,
        DiracCloverExpPC.reconstruct E { D with matpcType := .QUDA_MATPC_ODD_ODD } s x b solType = .ok s1 ∧
        DiracCloverExpPC.reconstruct E { D with matpcType := .QUDA_MATPC_ODD_ODD_ASYMMETRIC } s x b solType = .ok s1 ∧
        s1.data x.Even = E.ApplyClover
          (s.data b.Even + D.kappa • hop .QUDA_EVEN_PARITY (s.data x.Odd)) true .QUDA_EVEN_PARITY ∧
        (∀ l, l ≠ x.Even → l ≠ D.tmp1 → s1.data l = s.data l) ∧
        (x.Odd ≠ x.Even → x.Odd ≠ D.tmp1 → s1.data x.Odd = s.data x.Odd) ∧
        (b.Even ≠ x.Even → b.Even ≠ D.tmp1 → s1.data b.Even = s.data b.Even) ∧
        (b.Odd ≠ x.Even → b.Odd ≠ D.tmp1 → s1.data b.Odd = s.data b.Odd)) ∧
    (∃ e, DiracCloverExpPC.reconstruct E { D with matpcType := .QUDA_MATPC_INVALID } s x b solType = .error e) ∧
    (E.checkFullSpinor x b = false ∨ E.checkParitySpinor D.tmp1 x.Odd = false →
      (∃ e, DiracCloverExpPC.reconstruct E { D with matpcType := .QUDA_MATPC_EVEN_EVEN } s x b solType = .error e) ∧
      ∃ e, DiracCloverExpPC.reconstruct E { D with matpcType := .QUDA_MATPC_EVEN_EVEN_ASYMMETRIC } s x b solType = .error e) ∧
    (E.checkFullSpinor x b = false ∨ E.checkParitySpinor D.tmp1 x.Even = false →
      (∃ e, DiracCloverExpPC.reconstruct E { D with matpcType := .QUDA_MATPC_ODD_ODD } s x b solType = .error e) ∧
      ∃ e, DiracCloverExpPC.reconstruct E { D with matpcType := .QUDA_MATPC_ODD_ODD_ASYMMETRIC } s x b solType = .error e) := by
  refine ⟨?_, ?_, DiracCloverExpPC.reconstruct_invalid E
    { D with matpcType := .QUDA_MATPC_INVALID } s x b solType hsol rfl, ?_, ?_⟩
  · intro hfull hc
    exact ⟨_, DiracCloverExpPC.reconstruct_even E { D with matpcType := .QUDA_MATPC_EVEN_EVEN } s x b solType hop
        hsol hD hfull hc (Or.inl rfl),
      DiracCloverExpPC.reconstruct_even E { D with matpcType := .QUDA_MATPC_EVEN_EVEN_ASYMMETRIC } s x b solType hop
        hsol hD hfull hc (Or.inr rfl),
      DiracState.reconstruct_value s _ _ _ _ _ _,
      fun l h1 h2 => DiracState.reconstruct_frame s _ _ l _ _ _ _ h1 h2,
      fun h1 h2 => DiracState.reconstruct_frame s _ _ _ _ _ _ _ h1 h2,
      fun h1 h2 => DiracState.reconstruct_frame s _ _ _ _ _ _ _ h1 h2,
      fun h1 h2 => DiracState.reconstruct_frame s _ _ _ _ _ _ _ h1 h2⟩
  · intro hfull hc
    exact ⟨_, DiracCloverExpPC.reconstruct_odd E { D with matpcType := .QUDA_MATPC_ODD_ODD } s x b solType hop
        hsol hD hfull hc (Or.inl rfl),
      DiracCloverExpPC.reconstruct_odd E { D with matpcType := .QUDA_MATPC_ODD_ODD_ASYMMETRIC } s x b solType hop
        hsol hD hfull hc (Or.inr rfl),
      DiracState.reconstruct_value s _ _ _ _ _ _,
      fun l h1 h2 => DiracState.reconstruct_frame s _ _ l _ _ _ _ h1 h2,
      fun h1 h2 => DiracState.reconstruct_frame s _ _ _ _ _ _ _ h1 h2,
      fun h1 h2 => DiracState.reconstruct_frame s _ _ _ _ _ _ _ h1 h2,
      fun h1 h2 => DiracState.reconstruct_frame s _ _ _ _ _ _ _ h1 h2⟩
  · intro h
    exact ⟨DiracCloverExpPC.reconstruct_even_check_fails E { D with matpcType := .QUDA_MATPC_EVEN_EVEN } s x b
        solType hsol h (Or.inl rfl),
      DiracCloverExpPC.reconstruct_even_check_fails E { D with matpcType := .QUDA_MATPC_EVEN_EVEN_ASYMMETRIC } s x b
        solType hsol h (Or.inr rfl)⟩
  · intro h
    exact ⟨DiracCloverExpPC.reconstruct_odd_check_fails E { D with matpcType := .QUDA_MATPC_ODD_ODD } s x b
        solType hsol h (Or.inl rfl),
      DiracCloverExpPC.reconstruct_odd_check_fails E { D with matpcType := .QUDA_MATPC_ODD_ODD_ASYMMETRIC } s x b
        solType hsol h (Or.inr rfl)⟩

/-- C5 (amended) on the small instance (`x_e = 10`, `b_o = 40`, `kappa = 2`, the temporary
at a location of its own): the hypotheses hold, and `reconstruct` with `EVEN_EVEN` leaves
`3 * (40 + 2 * (7 * 10)) = 540` in `x.Odd`, 10 in `x.Even`, 30 and 40 in the halves of `b`. -/
theorem DiracCloverExpPC.reconstruct_full_system_witness :
    (¬ (QudaSolutionType.QUDA_MAT_SOLUTION = .QUDA_MATPC_SOLUTION
        ∨ QudaSolutionType.QUDA_MAT_SOLUTION = .QUDA_MATPCDAG_MATPC_SOLUTION)) ∧
    (∀ i p v k, exampleExtern.WilsonDslashXpay i p v k
      (exampleDirac .QUDA_MATPC_EVEN_EVEN).dagger = v + k • exampleHop p i) ∧
    exampleExtern.checkFullSpinor exampleX exampleB = true ∧
    exampleExtern.checkParitySpinor (exampleDirac .QUDA_MATPC_EVEN_EVEN).tmp1 exampleX.Odd
      = true ∧
    ∃ s1 : DiracState (Fin 5) Int,
      DiracCloverExpPC.reconstruct exampleExtern (exampleDirac .QUDA_MATPC_EVEN_EVEN)
        exampleState exampleX exampleB .QUDA_MAT_SOLUTION = .ok s1
      ∧ s1.data 1 = 540 ∧ s1.data 0 = 10 ∧ s1.data 2 = 30 ∧ s1.data 3 = 40 :=
  ⟨by decide, fun _ _ _ _ => rfl, rfl, rfl,
    match (DiracCloverExpPC.reconstruct_full_system exampleExtern
      (exampleDirac .QUDA_MATPC_EVEN_EVEN) exampleState exampleX exampleB .QUDA_MAT_SOLUTION
      exampleHop (by decide) (fun _ _ _ _ => rfl)).1 rfl rfl with
    | ⟨s1, h1, _, dOdd, _, dEven, dbE, dbO⟩ =>
      ⟨s1, h1, dOdd.trans (by decide), (dEven (by decide) (by decide)).trans (by decide),
        (dbE (by decide) (by decide)).trans (by decide),
        (dbO (by decide) (by decide)).trans (by decide)⟩⟩

/-! ### The performance counter -/

theorem DiracState.addFlops_total {L V : Type} (s : DiracState L V) (n : Nat) :
    (s.addFlops n).flops_total = s.flops_total + n := by
  simp only [DiracState.addFlops, DiracState.flops_total, ULLONG_RANGE]
  omega

theorem DiracState.write_addFlops_total_le {L V : Type} [DecidableEq L] (s : DiracState L V)
    (out : L) (v : V) (n : Nat) :
    s.flops_total ≤ ((s.write out v).addFlops n).flops_total := by
  rw [DiracState.addFlops_total]
  simp [DiracState.write, DiracState.flops_total]

theorem DiracState.flops_le_of_total_le {L V : Type} (s s1 : DiracState L V)
    (h : s.flops_total ≤ s1.flops_total) (hw : s1.flops_wraps = s.flops_wraps) :
    s.flops ≤ s1.flops := by
  simp only [DiracState.flops_total, hw] at h
  omega

theorem DiracState.addFlops_flops {L V : Type} (s : DiracState L V) (n : Nat) :
    (s.addFlops n).flops = (s.flops + n) % 2 ^ 64 := rfl

theorem DiracState.write_flops {L V : Type} [DecidableEq L] (s : DiracState L V) (out : L)
    (v : V) : (s.write out v).flops = s.flops := rfl

theorem Except.bind_measure_le {α β : Type} (n : Nat) (m : Except String α)
    (f : α → Except String β) (μa : α → Nat) (μb : β → Nat)
    (hm : ∀ a, m = .ok a → n ≤ μa a) (hf : ∀ a b, f a = .ok b → μa a ≤ μb b) :
    ∀ b, (m >>= f) = .ok b → n ≤ μb b := by
  intro b hb
  cases m with
  | error e => simp [bind, Except.bind] at hb
  | ok a => exact le_trans (hm a rfl) (hf a b hb)

theorem DiracCloverExpPC.CloverInv_total_le {K L V : Type} [DecidableEq L] (E : Extern K L V)
    (s : DiracState L V) (out inp : L) (parity : QudaParity) :
    ∀ s1, DiracCloverExpPC.CloverInv E s out inp parity = .ok s1 → s.flops_total ≤ s1.flops_total := by
  intro s1 h
  unfold DiracCloverExpPC.CloverInv at h
  split at h
  · simp at h
  · simp only [Except.ok.injEq] at h
    subst h
    exact DiracState.write_addFlops_total_le s _ _ _

theorem DiracCloverExpPC.Dslash_total_le {K L V : Type} [DecidableEq L] [Zero K]
    (E : Extern K L V) (D : DiracCloverExpPC K L) (s : DiracState L V) (out inp : L)
    (parity : QudaParity) :
    ∀ s1, DiracCloverExpPC.Dslash E D s out inp parity = .ok s1 → s.flops_total ≤ s1.flops_total := by
  intro s1 h
  unfold DiracCloverExpPC.Dslash at h
  split at h
  · simp at h
  · split at h
    · simp at h
    · simp only [Except.ok.injEq] at h
      subst h
      exact DiracState.write_addFlops_total_le s _ _ _

theorem DiracCloverExpPC.DslashXpay_total_le {K L V : Type} [DecidableEq L]
    (E : Extern K L V) (D : DiracCloverExpPC K L) (s : DiracState L V) (out inp : L)
    (parity : QudaParity) (x : L) (k : K) :
    ∀ s1, DiracCloverExpPC.DslashXpay E D s out inp parity x k = .ok s1 →
      s.flops_total ≤ s1.flops_total := by
  intro s1 h
  unfold DiracCloverExpPC.DslashXpay at h
  split at h
  · simp at h
  · split at h
    · simp at h
    · simp only [Except.ok.injEq] at h
      subst h
      exact DiracState.write_addFlops_total_le s _ _ _

theorem DiracWilson.Wilson_DslashXpay_total_le {K L V : Type} [DecidableEq L]
    (E : Extern K L V) (D : DiracCloverExpPC K L) (s : DiracState L V) (out inp : L)
    (parity : QudaParity) (x : L) (k : K) :
    ∀ s1, DiracWilson.DslashXpay E D s out inp parity x k = .ok s1 → s.flops_total ≤ s1.flops_total := by
  intro s1 h
  simp only [DiracWilson.DslashXpay, Except.ok.injEq] at h
  subst h
  exact DiracState.write_addFlops_total_le s _ _ _

theorem DiracClover.Clover_DslashXpay_total_le {K L V : Type} [DecidableEq L]
    (E : Extern K L V) (D : DiracCloverExpPC K L) (s : DiracState L V) (out inp : L)
    (parity : QudaParity) (x : L) (k : K) :
    ∀ s1, DiracClover.DslashXpay E D s out inp parity x k = .ok s1 → s.flops_total ≤ s1.flops_total := by
  intro s1 h
  simp only [DiracClover.DslashXpay, Except.ok.injEq] at h
  subst h
  exact DiracState.write_addFlops_total_le s _ _ _

theorem DiracCloverExpPC.M_total_le {K L V : Type} [DecidableEq L] [Zero K] [Neg K] [Mul K]
    (E : Extern K L V) (D : DiracCloverExpPC K L) (s : DiracState L V) (out inp : L) :
    ∀ s1, DiracCloverExpPC.M E D s out inp = .ok s1 → s.flops_total ≤ s1.flops_total := by
  intro s1 h
  unfold DiracCloverExpPC.M at h
  simp only [] at h
  split_ifs at h <;>
  first
  | exact Except.bind_measure_le _ _ _ DiracState.flops_total DiracState.flops_total
      (DiracCloverExpPC.Dslash_total_le E D s _ _ _)
      (fun a => DiracClover.Clover_DslashXpay_total_le E D a _ _ _ _ _) s1 h
  | exact Except.bind_measure_le _ _ _ DiracState.flops_total DiracState.flops_total
      (DiracCloverExpPC.Dslash_total_le E D s _ _ _)
      (fun a => DiracCloverExpPC.DslashXpay_total_le E D a _ _ _ _ _) s1 h
  | exact Except.bind_measure_le _ _ _ DiracState.flops_total DiracState.flops_total
      (DiracCloverExpPC.CloverInv_total_le E s _ _ _)
      (fun a => Except.bind_measure_le _ _ _ DiracState.flops_total DiracState.flops_total
        (DiracCloverExpPC.Dslash_total_le E D a _ _ _)
        (fun a2 => DiracWilson.Wilson_DslashXpay_total_le E D a2 _ _ _ _ _)) s1 h

theorem Prepared.pure_total_le {L V : Type} (src sol : SpinorRef L) (a : DiracState L V) :
    ∀ r : Prepared L V,
      (pure { state := a, src := src, sol := sol } : Except String (Prepared L V)) = .ok r →
      a.flops_total ≤ r.state.flops_total := by
  intro r h
  simp only [pure, Except.pure, Except.ok.injEq] at h
  subst h
  exact le_refl _

theorem DiracCloverExpPC.prepare_total_le {K L V : Type} [DecidableEq L]
    (E : Extern K L V) (D : DiracCloverExpPC K L) (s : DiracState L V) (x b : FullSpinor L)
    (solType : QudaSolutionType) :
    ∀ r, DiracCloverExpPC.prepare E D s x b solType = .ok r → s.flops_total ≤ r.state.flops_total := by
  intro r h
  unfold DiracCloverExpPC.prepare at h
  simp only [] at h
  split_ifs at h
  · simp only [Except.ok.injEq] at h
    subst h
    exact le_refl _
  · exact Except.bind_measure_le _ _ _ DiracState.flops_total (fun r : Prepared L V => r.state.flops_total)
      (DiracCloverExpPC.CloverInv_total_le E s _ _ _)
      (fun a => Except.bind_measure_le _ _ _ DiracState.flops_total (fun r : Prepared L V => r.state.flops_total)
        (DiracWilson.Wilson_DslashXpay_total_le E D a _ _ _ _ _)
        (fun a2 => Except.bind_measure_le _ _ _ DiracState.flops_total (fun r : Prepared L V => r.state.flops_total)
          (DiracCloverExpPC.CloverInv_total_le E a2 _ _ _)
          (fun a3 => Prepared.pure_total_le _ _ a3))) r h
  · exact Except.bind_measure_le _ _ _ DiracState.flops_total (fun r : Prepared L V => r.state.flops_total)
      (DiracCloverExpPC.CloverInv_total_le E s _ _ _)
      (fun a => Except.bind_measure_le _ _ _ DiracState.flops_total (fun r : Prepared L V => r.state.flops_total)
        (DiracWilson.Wilson_DslashXpay_total_le E D a _ _ _ _ _)
        (fun a2 => Except.bind_measure_le _ _ _ DiracState.flops_total (fun r : Prepared L V => r.state.flops_total)
          (DiracCloverExpPC.CloverInv_total_le E a2 _ _ _)
          (fun a3 => Prepared.pure_total_le _ _ a3))) r h
  · exact Except.bind_measure_le _ _ _ DiracState.flops_total (fun r : Prepared L V => r.state.flops_total)
      (DiracCloverExpPC.CloverInv_total_le E s _ _ _)
      (fun a => Except.bind_measure_le _ _ _ DiracState.flops_total (fun r : Prepared L V => r.state.flops_total)
        (DiracWilson.Wilson_DslashXpay_total_le E D a _ _ _ _ _)
        (fun a2 => Prepared.pure_total_le _ _ a2)) r h
  · exact Except.bind_measure_le _ _ _ DiracState.flops_total (fun r : Prepared L V => r.state.flops_total)
      (DiracCloverExpPC.CloverInv_total_le E s _ _ _)
      (fun a => Except.bind_measure_le _ _ _ DiracState.flops_total (fun r : Prepared L V => r.state.flops_total)
        (DiracWilson.Wilson_DslashXpay_total_le E D a _ _ _ _ _)
        (fun a2 => Prepared.pure_total_le _ _ a2)) r h

theorem DiracCloverExpPC.reconstruct_total_le {K L V : Type} [DecidableEq L]
    (E : Extern K L V) (D : DiracCloverExpPC K L) (s : DiracState L V) (x b : FullSpinor L)
    (solType : QudaSolutionType) :
    ∀ s1, DiracCloverExpPC.reconstruct E D s x b solType = .ok s1 → s.flops_total ≤ s1.flops_total := by
  intro s1 h
  unfold DiracCloverExpPC.reconstruct at h
  split_ifs at h
  · simp only [Except.ok.injEq] at h
    subst h
    exact le_refl _
  · exact Except.bind_measure_le _ _ _ DiracState.flops_total DiracState.flops_total
      (DiracWilson.Wilson_DslashXpay_total_le E D s _ _ _ _ _)
      (fun a => DiracCloverExpPC.CloverInv_total_le E a _ _ _) s1 h
  · exact Except.bind_measure_le _ _ _ DiracState.flops_total DiracState.flops_total
      (DiracWilson.Wilson_DslashXpay_total_le E D s _ _ _ _ _)
      (fun a => DiracCloverExpPC.CloverInv_total_le E a _ _ _) s1 h

theorem DiracCloverExpPC.M_symmetric_flops {K L V : Type} [DecidableEq L] [Zero K] [Neg K]
    [Mul K] (E : Extern K L V) (D : DiracCloverExpPC K L) (s : DiracState L V) (out inp : L)
    (hsym : D.matpcType = .QUDA_MATPC_EVEN_EVEN ∨ D.matpcType = .QUDA_MATPC_ODD_ODD)
    (hdag : D.dagger = false) (hvol : E.Volume D.tmp1 = E.Volume inp)
    (h1 : E.checkParitySpinor inp D.tmp1 = true) (h2 : E.checkSpinorAlias inp D.tmp1 = true)
    (h3 : E.checkParitySpinor D.tmp1 out = true) (h4 : E.checkSpinorAlias D.tmp1 out = true) :
    ∃ s1, DiracCloverExpPC.M E D s out inp = .ok s1 ∧
      s1.flops = (s.flops + 3696 * E.Volume inp) % 2 ^ 64 := by
  simp [DiracCloverExpPC.M, hsym, hdag, DiracCloverExpPC.Dslash_ok, DiracCloverExpPC.DslashXpay_ok,
    h1, h2, h3, h4, bind, Except.bind, DiracState.write, DiracState.addFlops, hvol,
    ULLONG_RANGE]
  omega

/-- C9 as stated fails when the 64-bit counter wraps: on the small instance (volume 8) with
`flops = 2^64 - 1` on entry, `CloverInv` passes its check and returns with
`flops = 4031`, which is below the value on entry and is not `2^64 - 1 + 504 * 8`. -/
theorem DiracCloverExpPC.flops_wrap_counterexample :
    exampleExtern.checkParitySpinor 2 0 = true ∧
    (DiracCloverExpPC.CloverInv exampleExtern exampleStateFull 0 2 .QUDA_EVEN_PARITY).map
      (fun s1 => s1.flops) = .ok 4031 ∧
    exampleStateFull.flops = 18446744073709551615 ∧
    (4031 : Nat) < 18446744073709551615 ∧
    (4031 : Nat) ≠ 18446744073709551615 + 504 * exampleExtern.Volume 2 := by
  refine ⟨rfl, rfl, rfl, by decide, by decide⟩

/-- C9 (amended): `flops` is a 64-bit unsigned counter.  A call of `CloverInv`, `Dslash` or
`DslashXpay` whose checks pass returns, leaves the contents of every field other than `out`
as they were, and sets `flops` to `flops + c * Volume(in)` modulo `2^64` with `c` = 504,
1824 and 1872: an increase by exactly `c * Volume(in)` whenever that sum is below `2^64`;
a call whose check fails raises an error.  One call of `M` with symmetric preconditioning,
`dagger` off, a temporary of the volume of `in` and its checks passing returns and sets
`flops` to `flops + 3696 * Volume(in)` modulo `2^64`: an increase by exactly
`3696 * Volume(in)` whenever that sum is below `2^64`.  No operation (`CloverInv`, `Dslash`,
`DslashXpay`, `M`, `prepare`, `reconstruct`) returns with `flops` lower than on entry unless
the counter has wrapped around during the call. -/
theorem DiracCloverExpPC.flops_accounting {K L V : Type} [DecidableEq L] [Zero K] [Neg K]
    [Mul K] (E : Extern K L V) (D : DiracCloverExpPC K L) (s : DiracState L V)
    (out inp x : L) (parity : QudaParity) (k : K) (xf bf : FullSpinor L)
    (solType : QudaSolutionType) :
    (E.checkParitySpinor inp out = true →
      ∃ s1, DiracCloverExpPC.CloverInv E s out inp parity = .ok s1 ∧
        s1.flops = (s.flops + 504 * E.Volume inp) % 2 ^ 64 ∧
        (s.flops + 504 * E.Volume inp < 2 ^ 64 → s1.flops = s.flops + 504 * E.Volume inp) ∧
        ∀ l, l ≠ out → s1.data l = s.data l) ∧
    (E.checkParitySpinor inp out = true → E.checkSpinorAlias inp out = true →
      ∃ s1, DiracCloverExpPC.Dslash E D s out inp parity = .ok s1 ∧
        s1.flops = (s.flops + 1824 * E.Volume inp) % 2 ^ 64 ∧
        (s.flops + 1824 * E.Volume inp < 2 ^ 64 → s1.flops = s.flops + 1824 * E.Volume inp) ∧
        ∀ l, l ≠ out → s1.data l = s.data l) ∧
    (E.checkParitySpinor inp out = true → E.checkSpinorAlias inp out = true →
      ∃ s1, DiracCloverExpPC.DslashXpay E D s out inp parity x k = .ok s1 ∧
        s1.flops = (s.flops + 1872 * E.Volume inp) % 2 ^ 64 ∧
        (s.flops + 1872 * E.Volume inp < 2 ^ 64 → s1.flops = s.flops + 1872 * E.Volume inp) ∧
        ∀ l, l ≠ out → s1.data l = s.data l) ∧
    (E.checkParitySpinor inp out = false → ∃ e, DiracCloverExpPC.CloverInv E s out inp parity = .error e) ∧
    (E.checkParitySpinor inp out = false ∨ E.checkSpinorAlias inp out = false →
      (∃ e, DiracCloverExpPC.Dslash E D s out inp parity = .error e) ∧
      ∃ e, DiracCloverExpPC.DslashXpay E D s out inp parity x k = .error e) ∧
    ((D.matpcType = .QUDA_MATPC_EVEN_EVEN ∨ D.matpcType = .QUDA_MATPC_ODD_ODD) →
      D.dagger = false → E.Volume D.tmp1 = E.Volume inp →
      E.checkParitySpinor inp D.tmp1 = true → E.checkSpinorAlias inp D.tmp1 = true →
      E.checkParitySpinor D.tmp1 out = true → E.checkSpinorAlias D.tmp1 out = true →
      ∃ s1, DiracCloverExpPC.M E D s out inp = .ok s1 ∧
        s1.flops = (s.flops + 3696 * E.Volume inp) % 2 ^ 64 ∧
        (s.flops + 3696 * E.Volume inp < 2 ^ 64 → s1.flops = s.flops + 3696 * E.Volume inp)) ∧
    (∀ s1, DiracCloverExpPC.CloverInv E s out inp parity = .ok s1 → s1.flops_wraps = s.flops_wraps → s.flops ≤ s1.flops) ∧
    (∀ s1, DiracCloverExpPC.Dslash E D s out inp parity = .ok s1 → s1.flops_wraps = s.flops_wraps → s.flops ≤ s1.flops) ∧
    (∀ s1, DiracCloverExpPC.DslashXpay E D s out inp parity x k = .ok s1 → s1.flops_wraps = s.flops_wraps → s.flops ≤ s1.flops) ∧
    (∀ s1, DiracCloverExpPC.M E D s out inp = .ok s1 → s1.flops_wraps = s.flops_wraps → s.flops ≤ s1.flops) ∧
    (∀ r, DiracCloverExpPC.prepare E D s xf bf solType = .ok r →
      r.state.flops_wraps = s.flops_wraps → s.flops ≤ r.state.flops) ∧
    (∀ s1, DiracCloverExpPC.reconstruct E D s xf bf solType = .ok s1 → s1.flops_wraps = s.flops_wraps → s.flops ≤ s1.flops) := by
  refine ⟨?_, ?_, ?_, ?_, ?_, ?_,
    fun s1 h hw => DiracState.flops_le_of_total_le s s1
      (DiracCloverExpPC.CloverInv_total_le E s out inp parity s1 h) hw,
    fun s1 h hw => DiracState.flops_le_of_total_le s s1
      (DiracCloverExpPC.Dslash_total_le E D s out inp parity s1 h) hw,
    fun s1 h hw => DiracState.flops_le_of_total_le s s1
      (DiracCloverExpPC.DslashXpay_total_le E D s out inp parity x k s1 h) hw,
    fun s1 h hw => DiracState.flops_le_of_total_le s s1
      (DiracCloverExpPC.M_total_le E D s out inp s1 h) hw,
    fun r h hw => DiracState.flops_le_of_total_le s r.state
      (DiracCloverExpPC.prepare_total_le E D s xf bf solType r h) hw,
    fun s1 h hw => DiracState.flops_le_of_total_le s s1
      (DiracCloverExpPC.reconstruct_total_le E D s xf bf solType s1 h) hw⟩
  · intro h
    exact ⟨_, DiracCloverExpPC.CloverInv_ok E s out inp parity h, rfl,
      fun hlt => Nat.mod_eq_of_lt hlt, fun l hl => DiracState.write_data_ne s out l _ hl⟩
  · intro h ha
    exact ⟨_, DiracCloverExpPC.Dslash_ok E D s out inp parity h ha, rfl,
      fun hlt => Nat.mod_eq_of_lt hlt, fun l hl => DiracState.write_data_ne s out l _ hl⟩
  · intro h ha
    exact ⟨_, DiracCloverExpPC.DslashXpay_ok E D s out inp parity x k h ha, rfl,
      fun hlt => Nat.mod_eq_of_lt hlt, fun l hl => DiracState.write_data_ne s out l _ hl⟩
  · intro h
    simp [DiracCloverExpPC.CloverInv, h]
  · intro h
    rcases h with h | h
    · simp [DiracCloverExpPC.Dslash, DiracCloverExpPC.DslashXpay, h]
    · cases hc : E.checkParitySpinor inp out <;>
      simp [DiracCloverExpPC.Dslash, DiracCloverExpPC.DslashXpay, h, hc]
  · intro hsym hdag hvol h1 h2 h3 h4
    obtain ⟨s1, hM, hf⟩ := DiracCloverExpPC.M_symmetric_flops E D s out inp hsym hdag hvol
      h1 h2 h3 h4
    exact ⟨s1, hM, hf, fun hlt => hf.trans (Nat.mod_eq_of_lt hlt)⟩

/-- C9 (amended) on the small instance (every volume is 8, `flops = 0` on entry): `M` with
`EVEN_EVEN`, `dagger` off, from the field at location 2 to the field at location 0, passes
its checks and returns with `flops = 3696 * 8`. -/
theorem DiracCloverExpPC.flops_accounting_witness :
    ∃ s1, DiracCloverExpPC.M exampleExtern (exampleDirac .QUDA_MATPC_EVEN_EVEN) exampleState 0 2
        = .ok s1 ∧ s1.flops = 0 + 3696 * 8 :=
  match (DiracCloverExpPC.flops_accounting exampleExtern (exampleDirac .QUDA_MATPC_EVEN_EVEN)
    exampleState 0 2 3 .QUDA_EVEN_PARITY 2 exampleX exampleB .QUDA_MAT_SOLUTION).2.2.2.2.2.1
    (Or.inl rfl) rfl rfl rfl (by decide) rfl (by decide) with
  | ⟨s1, h1, _, h3⟩ => ⟨s1, h1, h3 (by decide)⟩

end quda

namespace quda

/-! ## Theorems: `TRLM::reorder` -/

theorem insertionSort_fst_le_idem {α β : Type} [LinearOrder α] (l : List (α × β)) :
    (l.insertionSort (fun p q => p.1 ≤ q.1)).insertionSort (fun p q => p.1 ≤ q.1)
      = l.insertionSort (fun p q => p.1 ≤ q.1) := by
  haveI : IsTotal (α × β) (fun p q => p.1 ≤ q.1) := ⟨fun a b => le_total a.1 b.1⟩
  haveI : IsTrans (α × β) (fun p q => p.1 ≤ q.1) := ⟨fun _ _ _ h1 h2 => le_trans h1 h2⟩
  exact List.Sorted.insertionSort_eq (List.sorted_insertionSort _ l)

theorem insertionSort_fst_ge_idem {α β : Type} [LinearOrder α] (l : List (α × β)) :
    (l.insertionSort (fun p q => q.1 ≤ p.1)).insertionSort (fun p q => q.1 ≤ p.1)
      = l.insertionSort (fun p q => q.1 ≤ p.1) := by
  haveI : IsTotal (α × β) (fun p q => q.1 ≤ p.1) := ⟨fun a b => le_total b.1 a.1⟩
  haveI : IsTrans (α × β) (fun p q => q.1 ≤ p.1) := ⟨fun _ _ _ h1 h2 => le_trans h2 h1⟩
  exact List.Sorted.insertionSort_eq (List.sorted_insertionSort _ l)

/-- C8: `reorder` is idempotent: for every list of eigenpairs (eigenvalue estimates with
their Krylov vectors) and every requested order, applying `reorder` twice yields the same
list of values and vectors as applying it once. -/
theorem TRLM.reorder_idempotent {α β : Type} [LinearOrder α] (descending reverse : Bool)
    (eigenpairs : List (α × β)) :
    TRLM.reorder descending reverse (TRLM.reorder descending reverse eigenpairs)
      = TRLM.reorder descending reverse eigenpairs := by
  unfold TRLM.reorder
  split
  · exact insertionSort_fst_ge_idem eigenpairs
  · exact insertionSort_fst_le_idem eigenpairs

end quda
